import Mathlib

/-!
# Verification of the open-package authenticated-encryption pipeline

A shallow embedding of the `crypto`, `metadata` and `packager` packages of the
`manchtools/open-package` repository, together with proofs of the specified
properties of the `.intunewin` container pipeline.

Byte strings are modelled as `List Nat` (each element a byte value).  The Go
standard-library primitives (AES block cipher, SHA-256, HMAC-SHA256) are
external collaborators of the repository; they are modelled as an abstract
`CryptoPrims` bundle, constrained only by the interface facts the repository
relies on (output sizes, and the block cipher being invertible).  Everything
the repository itself implements — PKCS#7 padding, the CBC chaining the code
requests from `cipher.NewCBCEncrypter`, HMAC input assembly, the
`MAC ‖ IV ‖ ciphertext` container layout, Detection.xml rendering and the
outer-archive assembly — is translated directly from the source.
-/

namespace OpenPackage

/-- A byte string: a list of byte values. -/
abbrev Bytes := List Nat

/-- External cryptographic primitives from Go's standard library
(`crypto/aes`, `crypto/sha256`, `crypto/hmac`).  `aesEncBlock`/`aesDecBlock`
encrypt/decrypt a single 16-byte block under a 32-byte key. -/
structure CryptoPrims where
  sha256 : Bytes → Bytes
  hmacSha256 : Bytes → Bytes → Bytes
  aesEncBlock : Bytes → Bytes → Bytes
  aesDecBlock : Bytes → Bytes → Bytes

/-- The interface facts the repository relies on: SHA-256 and HMAC-SHA256
produce 32 bytes, the AES block cipher maps 16-byte blocks to 16-byte blocks
under a 32-byte key, and block decryption inverts block encryption. -/
def CryptoPrims.WellFormed (C : CryptoPrims) : Prop :=
  (∀ d, (C.sha256 d).length = 32) ∧
  (∀ k d, (C.hmacSha256 k d).length = 32) ∧
  (∀ k b, k.length = 32 → b.length = 16 → (C.aesEncBlock k b).length = 16) ∧
  (∀ k b, k.length = 32 → b.length = 16 → C.aesDecBlock k (C.aesEncBlock k b) = b)

/-- `AES256KeySize` is the key size for AES-256 encryption (32 bytes). -/
def AES256KeySize : Nat := 32

/-- `IVSize` is the initialization vector size for AES-CBC (16 bytes). -/
def IVSize : Nat := 16

/-- `HMACSize` is the size of HMAC-SHA256 output (32 bytes). -/
def HMACSize : Nat := 32

/-- `aes.BlockSize` from Go's `crypto/aes`: 16 bytes. -/
def aesBlockSize : Nat := 16

/-- Bytewise XOR of two byte strings (truncating to the shorter). -/
def xorBytes (a b : Bytes) : Bytes :=
  List.zipWith (fun x y => x ^^^ y) a b

/-- Fuelled splitting of a byte string into consecutive 16-byte chunks;
structural recursion on the fuel keeps the function kernel-reducible.  With
fuel at least the length of the list the fuel never runs out (each step
removes 16 elements and consumes one unit). -/
def toBlocksF : Nat → Bytes → List Bytes
  | _, [] => []
  | 0, _ :: _ => []
  | fuel + 1, x :: xs => (x :: xs).take 16 :: toBlocksF fuel ((x :: xs).drop 16)

/-- Split a byte string into consecutive 16-byte blocks (the final block is
shorter when the length is not a multiple of 16; the repository only applies
this to padded, block-aligned data). -/
def toBlocks (l : Bytes) : List Bytes :=
  toBlocksF l.length l

/-- CBC-mode encryption over a list of 16-byte blocks, as performed by Go's
`cipher.NewCBCEncrypter(block, iv).CryptBlocks`: each plaintext block is
XORed with the previous ciphertext block (initially the IV) and then
encrypted with the block cipher. -/
def cbcEncryptBlocks (C : CryptoPrims) (key : Bytes) : Bytes → List Bytes → List Bytes
  | _, [] => []
  | prev, b :: bs =>
      let c := C.aesEncBlock key (xorBytes prev b)
      c :: cbcEncryptBlocks C key c bs

/-- CBC-mode decryption over a list of 16-byte blocks, as performed by Go's
`cipher.NewCBCDecrypter` (used by the repository's tests to check the
round trip): each ciphertext block is decrypted and XORed with the previous
ciphertext block (initially the IV). -/
def cbcDecryptBlocks (C : CryptoPrims) (key : Bytes) : Bytes → List Bytes → List Bytes
  | _, [] => []
  | prev, c :: cs =>
      xorBytes (C.aesDecBlock key c) prev :: cbcDecryptBlocks C key c cs

/-- CBC encryption of a (block-aligned) byte string. -/
def cbcEncrypt (C : CryptoPrims) (key iv data : Bytes) : Bytes :=
  (cbcEncryptBlocks C key iv (toBlocks data)).flatten

/-- CBC decryption of a (block-aligned) byte string. -/
def cbcDecrypt (C : CryptoPrims) (key iv data : Bytes) : Bytes :=
  (cbcDecryptBlocks C key iv (toBlocks data)).flatten

/-- `pkcs7Pad` pads the data to the specified block size using PKCS#7
padding (`crypto.go`): `padding := blockSize - (len(data) % blockSize)` bytes
are appended, each holding the value `byte(padding)`. -/
def pkcs7Pad (data : Bytes) (blockSize : Nat) : Bytes :=
  let padding := blockSize - data.length % blockSize
  data ++ List.replicate padding (padding % 256)

/-- PKCS#7 padding removal as performed by the repository's test
(`crypto_test.go`): read the final byte as the padding length and drop that
many bytes from the end. -/
def pkcs7Unpad (data : Bytes) : Bytes :=
  data.take (data.length - data.getLastD 0)

/-- `ComputeSHA256` computes the SHA256 hash of the provided data
(`crypto.go`, delegating to `crypto/sha256`). -/
def ComputeSHA256 (C : CryptoPrims) (data : Bytes) : Bytes :=
  C.sha256 data

/-- `ComputeHMACSHA256` computes the HMAC-SHA256 of the provided data using
the given key (`crypto.go`, delegating to `crypto/hmac` over `sha256.New`). -/
def ComputeHMACSHA256 (C : CryptoPrims) (key data : Bytes) : Bytes :=
  C.hmacSha256 key data

/-- `EncryptAES256CBC` encrypts data using AES-256-CBC with PKCS#7 padding
(`crypto.go`).  It rejects a key whose length differs from 32 bytes and an IV
whose length differs from 16 bytes.  (The subsequent `aes.NewCipher` call in
the Go source can only fail on an invalid key size, which the first check has
already excluded, so it has no error branch in this model.) -/
def EncryptAES256CBC (C : CryptoPrims) (key iv plaintext : Bytes) : Except String Bytes :=
  if key.length ≠ AES256KeySize then
    .error "invalid key size"
  else if iv.length ≠ IVSize then
    .error "invalid IV size"
  else
    .ok (cbcEncrypt C key iv (pkcs7Pad plaintext aesBlockSize))

/-- `EncryptionInfo` (`crypto.go`): the cryptographic parameters needed for
encrypting and decrypting the inner IntuneWin package. -/
structure EncryptionInfo where
  encryptionKey : Bytes
  macKey : Bytes
  iv : Bytes
  mac : Bytes
  fileDigest : Bytes
  unencryptedSize : Nat
deriving Repr, DecidableEq

/-- `Encrypt` (`crypto.go`) performs authenticated encryption on the provided
data and returns the encrypted data with HMAC and IV prepended, along with the
encryption info.  The Go function draws `encryptionKey`, `macKey` and `iv`
from the secure random source; this model takes those three draws as
arguments (a failed random read in Go aborts before any of the steps modelled
here). -/
def Encrypt (C : CryptoPrims) (encryptionKey macKey iv plaintext : Bytes) :
    Except String (EncryptionInfo × Bytes) :=
  let fileDigest := ComputeSHA256 C plaintext
  match EncryptAES256CBC C encryptionKey iv plaintext with
  | .error e => .error ("encryption failed: " ++ e)
  | .ok ciphertext =>
      let dataToMAC := iv ++ ciphertext
      let mac := ComputeHMACSHA256 C macKey dataToMAC
      let output := mac ++ iv ++ ciphertext
      .ok ({ encryptionKey := encryptionKey, macKey := macKey, iv := iv,
             mac := mac, fileDigest := fileDigest,
             unencryptedSize := plaintext.length }, output)

/-- `EncryptReader` (`crypto.go`) reads all data from a reader with
`io.ReadAll` and passes it to `Encrypt`.  The reader is modelled by the
outcome of `io.ReadAll`: either the delivered bytes or a read error. -/
def EncryptReader (C : CryptoPrims) (readResult : Except String Bytes)
    (encryptionKey macKey iv : Bytes) : Except String (EncryptionInfo × Bytes) :=
  match readResult with
  | .error e => .error ("failed to read input: " ++ e)
  | .ok plaintext => Encrypt C encryptionKey macKey iv plaintext

/-- A concrete, trivially well-formed primitive bundle used to evaluate the
pipeline on explicit inputs (the block cipher is the identity on blocks). -/
def testPrims : CryptoPrims where
  sha256 := fun d => List.replicate 32 (d.length % 256)
  hmacSha256 := fun k d => List.replicate 32 ((k.length + d.length) % 256)
  aesEncBlock := fun _ b => b
  aesDecBlock := fun _ b => b

theorem testPrims_wellFormed : testPrims.WellFormed := by
  refine ⟨fun d => ?_, fun k d => ?_, fun k b _ hb => ?_, fun k b _ _ => rfl⟩
  · simp [testPrims]
  · simp [testPrims]
  · simpa [testPrims] using hb

/-! ## Base64 encoding

`encoding/base64`'s `StdEncoding` (standard alphabet, padded), the external
encoder `EncryptionInfo.ToBase64` delegates to. -/

/-- The standard base64 alphabet. -/
def base64Alphabet : List Char :=
  "ABCDEFGHIJKLMNOPQRSTUVWXYZabcdefghijklmnopqrstuvwxyz0123456789+/".data

/-- The base64 character for a 6-bit group. -/
def base64Char (n : Nat) : Char :=
  base64Alphabet.getD (n % 64) (Char.ofNat 65)

/-- Standard padded base64 of a byte string, three input bytes at a time. -/
def base64EncodeChars : Bytes → List Char
  | [] => []
  | [a] =>
      let n := (a % 256) * 65536
      [base64Char (n / 262144), base64Char (n / 4096), Char.ofNat 61, Char.ofNat 61]
  | [a, b] =>
      let n := (a % 256) * 65536 + (b % 256) * 256
      [base64Char (n / 262144), base64Char (n / 4096), base64Char (n / 64), Char.ofNat 61]
  | a :: b :: c :: rest =>
      let n := (a % 256) * 65536 + (b % 256) * 256 + c % 256
      base64Char (n / 262144) :: base64Char (n / 4096) :: base64Char (n / 64) ::
        base64Char n :: base64EncodeChars rest

/-- `base64.StdEncoding.EncodeToString`. -/
def base64Encode (bs : Bytes) : String :=
  ⟨base64EncodeChars bs⟩

/-- `EncryptionInfoBase64` (`crypto.go`): the encryption info with values
encoded as base64. -/
structure EncryptionInfoBase64 where
  encryptionKey : String
  macKey : String
  iv : String
  mac : String
  fileDigest : String
  unencryptedSize : Nat
deriving Repr, DecidableEq

/-- `ToBase64` (`crypto.go`) converts the encryption info to base64-encoded
strings. -/
def EncryptionInfo.toBase64 (e : EncryptionInfo) : EncryptionInfoBase64 where
  encryptionKey := base64Encode e.encryptionKey
  macKey := base64Encode e.macKey
  iv := base64Encode e.iv
  mac := base64Encode e.mac
  fileDigest := base64Encode e.fileDigest
  unencryptedSize := e.unencryptedSize

/-! ## The metadata package: Detection.xml generation -/

/-- `ToolVersion` (`detection.go`): mimics the official Microsoft tool
version format. -/
def ToolVersion : String := "1.8.4.0"

/-- `ProfileIdentifier` (`detection.go`): constant value used in
Detection.xml. -/
def ProfileIdentifier : String := "ProfileVersion1"

/-- `FileDigestAlgorithm` (`detection.go`): the hash algorithm tag. -/
def FileDigestAlgorithm : String := "SHA256"

/-- `EncryptedFileName` (`detection.go`): the standard name for the encrypted
inner package. -/
def EncryptedFileName : String := "IntunePackage.intunewin"

/-- The schema-instance namespace URL set on `ApplicationInfo`. -/
def xsiNamespace : String := "http://www.w3.org/2001/XMLSchema-instance"

/-- The schema-definition namespace URL set on `ApplicationInfo`. -/
def xsdNamespace : String := "http://www.w3.org/2001/XMLSchema"

/-- `xml.Header` from Go's `encoding/xml`. -/
def xmlHeader : String := "<?xml version=\"1.0\" encoding=\"UTF-8\"?>\n"

/-- Escape of one character as performed by `encoding/xml`'s `EscapeText`
(applied by the marshaller to every string field and attribute value). -/
def xmlEscapeChar (c : Char) : String :=
  if c.toNat = 34 then "&#34;"
  else if c.toNat = 39 then "&#39;"
  else if c.toNat = 38 then "&amp;"
  else if c.toNat = 60 then "&lt;"
  else if c.toNat = 62 then "&gt;"
  else if c.toNat = 9 then "&#x9;"
  else if c.toNat = 10 then "&#xA;"
  else if c.toNat = 13 then "&#xD;"
  else String.singleton c

/-- `encoding/xml` text escaping of a character list. -/
def xmlEscapeList : List Char → List Char
  | [] => []
  | c :: t => (xmlEscapeChar c).data ++ xmlEscapeList t

/-- `encoding/xml` text escaping of a whole string. -/
def xmlEscape (s : String) : String :=
  ⟨xmlEscapeList s.data⟩

/-- A string is free of XML-escaped characters: `xmlEscape` leaves it
unchanged character by character. -/
def NoXmlSpecial (s : String) : Prop :=
  ∀ c ∈ s.data, c.toNat ≠ 34 ∧ c.toNat ≠ 39 ∧ c.toNat ≠ 38 ∧ c.toNat ≠ 60 ∧
    c.toNat ≠ 62 ∧ c.toNat ≠ 9 ∧ c.toNat ≠ 10 ∧ c.toNat ≠ 13

instance (s : String) : Decidable (NoXmlSpecial s) := by
  unfold NoXmlSpecial; infer_instance

/-- Fuelled decimal digit rendering; structural recursion on the fuel keeps
it kernel-reducible.  With fuel at least `n` the fuel never runs out. -/
def natDigitsF : Nat → Nat → List Char
  | 0, n => [Char.ofNat (48 + n)]
  | fuel + 1, n =>
      if n < 10 then [Char.ofNat (48 + n)]
      else natDigitsF fuel (n / 10) ++ [Char.ofNat (48 + n % 10)]

/-- Decimal rendering of a natural number (Go's `strconv` formatting of the
`int64` field, external library). -/
def natDigits (n : Nat) : List Char :=
  natDigitsF n n

/-- Decimal rendering of a natural number as a string. -/
def natToDecimal (n : Nat) : String :=
  ⟨natDigits n⟩

/-- `EncryptionInfo` XML record of `detection.go` (nested element of
`ApplicationInfo`; string fields, in marshalling order). -/
structure XmlEncryptionInfo where
  encryptionKey : String
  macKey : String
  initializationVector : String
  mac : String
  profileIdentifier : String
  fileDigest : String
  fileDigestAlgorithm : String
deriving Repr, DecidableEq

/-- `ApplicationInfo` XML record of `detection.go`: the root element of
Detection.xml (two namespace attributes, a `ToolVersion` attribute, then the
child elements in marshalling order). -/
structure ApplicationInfo where
  xsi : String
  xsd : String
  toolVersion : String
  name : String
  unencryptedContentSize : Nat
  fileName : String
  setupFile : String
  encryptionInfo : XmlEncryptionInfo
deriving Repr, DecidableEq

/-- The fixed text chunks of the marshalled `ApplicationInfo` document, in
order (tags, attribute scaffolding and the two-space indentation produced by
`xml.MarshalIndent(appInfo, "", "  ")`). -/
def chunkA : String := "<ApplicationInfo xmlns:xsi=\""

/-- Chunk between the `xsi` and `xsd` attribute values. -/
def chunkB : String := "\" xmlns:xsd=\""

/-- Chunk between the `xsd` attribute value and the `ToolVersion` value. -/
def chunkC : String := "\" ToolVersion=\""

/-- Chunk closing the root tag and opening `Name`. -/
def chunkD : String := "\">\n  <Name>"

/-- Chunk between `Name` and `UnencryptedContentSize`. -/
def chunkE : String := "</Name>\n  <UnencryptedContentSize>"

/-- Chunk between `UnencryptedContentSize` and `FileName`. -/
def chunkF : String := "</UnencryptedContentSize>\n  <FileName>"

/-- Chunk between `FileName` and `SetupFile`. -/
def chunkG : String := "</FileName>\n  <SetupFile>"

/-- Chunk between `SetupFile` and the nested `EncryptionInfo`'s first field. -/
def chunkH : String := "</SetupFile>\n  <EncryptionInfo>\n    <EncryptionKey>"

/-- Chunk between `EncryptionKey` and `MacKey`. -/
def chunkI : String := "</EncryptionKey>\n    <MacKey>"

/-- Chunk between `MacKey` and `InitializationVector`. -/
def chunkJ : String := "</MacKey>\n    <InitializationVector>"

/-- Chunk between `InitializationVector` and `Mac`. -/
def chunkK : String := "</InitializationVector>\n    <Mac>"

/-- Chunk between `Mac` and `ProfileIdentifier`. -/
def chunkL : String := "</Mac>\n    <ProfileIdentifier>"

/-- Chunk between `ProfileIdentifier` and `FileDigest`. -/
def chunkM : String := "</ProfileIdentifier>\n    <FileDigest>"

/-- Chunk between `FileDigest` and `FileDigestAlgorithm`. -/
def chunkN : String := "</FileDigest>\n    <FileDigestAlgorithm>"

/-- Closing chunk of the document. -/
def chunkO : String := "</FileDigestAlgorithm>\n  </EncryptionInfo>\n</ApplicationInfo>"

/-- Modelled from the spec: the output of Go's `xml.MarshalIndent` (external
`encoding/xml` library) on the fixed `ApplicationInfo` schema of
`detection.go` — element names, attribute names, nesting, field order and
two-space indentation as produced for that struct, with every string field
and attribute value escaped by `EscapeText` and the `int64` size rendered in
decimal. -/
def marshalApplicationInfo (a : ApplicationInfo) : String :=
  chunkA ++ xmlEscape a.xsi ++ chunkB ++ xmlEscape a.xsd ++ chunkC ++
    xmlEscape a.toolVersion ++ chunkD ++ xmlEscape a.name ++ chunkE ++
    natToDecimal a.unencryptedContentSize ++ chunkF ++ xmlEscape a.fileName ++
    chunkG ++ xmlEscape a.setupFile ++ chunkH ++
    xmlEscape a.encryptionInfo.encryptionKey ++ chunkI ++
    xmlEscape a.encryptionInfo.macKey ++ chunkJ ++
    xmlEscape a.encryptionInfo.initializationVector ++ chunkK ++
    xmlEscape a.encryptionInfo.mac ++ chunkL ++
    xmlEscape a.encryptionInfo.profileIdentifier ++ chunkM ++
    xmlEscape a.encryptionInfo.fileDigest ++ chunkN ++
    xmlEscape a.encryptionInfo.fileDigestAlgorithm ++ chunkO

/-- `DetectionXMLOptions` (`detection.go`). -/
structure DetectionXMLOptions where
  name : String
  setupFile : String
  cryptoInfo : EncryptionInfoBase64
deriving Repr, DecidableEq

/-- `GenerateDetectionXML` (`detection.go`) creates the Detection.xml
content: the `ApplicationInfo` value assembled from the fixed schema
constants and the caller-supplied options, marshalled with indentation and
preceded by `xml.Header`.  (The Go error branch fires only when
`xml.MarshalIndent` fails, which cannot happen for this struct of strings
and an integer, so the model always succeeds; the `Except` layer preserves
the Go signature.) -/
def GenerateDetectionXML (opts : DetectionXMLOptions) : Except String String :=
  .ok (xmlHeader ++ marshalApplicationInfo
    { xsi := xsiNamespace
      xsd := xsdNamespace
      toolVersion := ToolVersion
      name := opts.name
      unencryptedContentSize := opts.cryptoInfo.unencryptedSize
      fileName := EncryptedFileName
      setupFile := opts.setupFile
      encryptionInfo :=
        { encryptionKey := opts.cryptoInfo.encryptionKey
          macKey := opts.cryptoInfo.macKey
          initializationVector := opts.cryptoInfo.iv
          mac := opts.cryptoInfo.mac
          profileIdentifier := ProfileIdentifier
          fileDigest := opts.cryptoInfo.fileDigest
          fileDigestAlgorithm := FileDigestAlgorithm } })

/-! ## A consumer-side parser for Detection.xml

Recovers the field values from a rendered document; used to state that
parsing the generated document back yields exactly the caller-supplied
values. -/

/-- Consume an expected literal chunk from the front of the character
stream. -/
def expectChunk (pre : String) (s : List Char) : Option (List Char) :=
  if pre.data.isPrefixOf s then some (s.drop pre.data.length) else none

/-- Read characters up to (excluding) the first character with code `stop`. -/
def readUntil (stop : Nat) (s : List Char) : List Char × List Char :=
  (s.takeWhile (fun c => c.toNat != stop), s.dropWhile (fun c => c.toNat != stop))

/-- Parse a sequence of (expected chunk, field stop character) items,
returning the field values and the remaining stream. -/
def parseFields : List (String × Nat) → List Char → Option (List String × List Char)
  | [], s => some ([], s)
  | (chunk, stop) :: rest, s =>
      match expectChunk chunk s with
      | none => none
      | some s1 =>
          let fr := readUntil stop s1
          match parseFields rest fr.2 with
          | none => none
          | some (fs, r) => some (String.mk fr.1 :: fs, r)

/-- The chunk/stop schedule of a Detection.xml document: each fixed chunk is
followed by a field read up to the closing quote (code 34) for attribute
values or the next tag opening (code 60) for element text. -/
def detectionSchema : List (String × Nat) :=
  [(xmlHeader ++ chunkA, 34), (chunkB, 34), (chunkC, 34), (chunkD, 60),
   (chunkE, 60), (chunkF, 60), (chunkG, 60), (chunkH, 60), (chunkI, 60),
   (chunkJ, 60), (chunkK, 60), (chunkL, 60), (chunkM, 60), (chunkN, 60)]

/-- Parse a Detection.xml document: the XML declaration and root element
opener, the two namespace attribute values, the `ToolVersion` attribute
value, and the eleven text fields, finally requiring the closing tags and
the end of the document.  Returns the fourteen recovered strings in document
order. -/
def parseDetectionXML (doc : String) : Option (List String) :=
  match parseFields detectionSchema doc.data with
  | none => none
  | some (fs, r) =>
      match expectChunk chunkO r with
      | none => none
      | some r2 => if r2 = [] then some fs else none

/-! ## The packager: outer-archive assembly

ZIP serialization is produced by Go's `archive/zip` (external library); an
archive is modelled as the ordered list of its entries, each a path paired
with the entry's content bytes.  The document bytes of an entry holding a
text document are the document's characters. -/

/-- The bytes of a text document written into an archive entry. -/
def strToBytes (s : String) : Bytes :=
  s.data.map Char.toNat

/-- The fixed archive path of the metadata document. -/
def metadataPath : String := "IntuneWinPackage/Metadata/Detection.xml"

/-- The fixed archive path prefix of the encrypted content entry. -/
def contentsDir : String := "IntuneWinPackage/Contents/"

/-- `createOuterPackage` (`packager.go`): the entries written into the final
`.intunewin` ZIP — Detection.xml at `IntuneWinPackage/Metadata/Detection.xml`
first, then the encrypted content at
`IntuneWinPackage/Contents/IntunePackage.intunewin`, and nothing else. -/
def createOuterPackage (encryptedContent detectionXML : Bytes) : List (String × Bytes) :=
  [(metadataPath, detectionXML),
   (contentsDir ++ EncryptedFileName, encryptedContent)]

/-- `CreatePackage` (`packager.go`), from the point where the inner ZIP bytes
are in hand (the directory walk that produces them is external I/O): encrypt
the inner archive, render Detection.xml from the base64 encryption info, and
assemble the outer package.  The three random draws of `crypto.Encrypt` are
taken as arguments, as in `Encrypt`. -/
def CreatePackage (C : CryptoPrims) (encKey macKey iv : Bytes)
    (innerZip : Bytes) (appName setupFile : String) :
    Except String (List (String × Bytes)) :=
  match Encrypt C encKey macKey iv innerZip with
  | .error e => .error ("failed to encrypt content: " ++ e)
  | .ok (info, encryptedContent) =>
      match GenerateDetectionXML
          { name := appName, setupFile := setupFile, cryptoInfo := info.toBase64 } with
      | .error e => .error ("failed to generate Detection.xml: " ++ e)
      | .ok xml => .ok (createOuterPackage encryptedContent (strToBytes xml))

/-- Possible I/O failures inside `createOuterPackage` (`packager.go`): the
`os.Create` of the output file, and the two `addToZip` writes.  (`zw.Close`
runs in a `defer` whose error is discarded, so it cannot make the function
fail.) -/
structure OuterFaults where
  createOk : Bool
  writeMetadataOk : Bool
  writeContentOk : Bool
deriving Repr, DecidableEq

/-- `createOuterPackage` (`packager.go`) with its file-system effect made
explicit.  The second component is the state of the output path after the
call: `none` when no file was created, otherwise the entries written so far.
`os.Create` runs first, so after a successful create every failure of a later
write leaves a partial file behind — the function returns the error but never
removes the file. -/
def createOuterPackageFS (faults : OuterFaults) (encryptedContent detectionXML : Bytes) :
    Except String Unit × Option (List (String × Bytes)) :=
  if faults.createOk = false then
    (.error "failed to create output file", none)
  else if faults.writeMetadataOk = false then
    (.error "failed to add Detection.xml", some [])
  else if faults.writeContentOk = false then
    (.error "failed to add encrypted content", some [(metadataPath, detectionXML)])
  else
    (.ok (), some (createOuterPackage encryptedContent detectionXML))

/-- `CreatePackage` (`packager.go`) with its file-system effect made
explicit.  `innerZipResult` is the outcome of `createInnerZip` (a directory
walk, external I/O); the first component is the returned output path or
error, the second the state of the output file afterwards. -/
def CreatePackageFS (C : CryptoPrims) (innerZipResult : Except String Bytes)
    (encKey macKey iv : Bytes) (appName setupFile : String) (faults : OuterFaults) :
    Except String String × Option (List (String × Bytes)) :=
  match innerZipResult with
  | .error e => (.error ("failed to create inner ZIP: " ++ e), none)
  | .ok innerZip =>
      match Encrypt C encKey macKey iv innerZip with
      | .error e => (.error ("failed to encrypt content: " ++ e), none)
      | .ok (info, encryptedContent) =>
          match GenerateDetectionXML
              { name := appName, setupFile := setupFile, cryptoInfo := info.toBase64 } with
          | .error e => (.error ("failed to generate Detection.xml: " ++ e), none)
          | .ok xml =>
              match createOuterPackageFS faults encryptedContent (strToBytes xml) with
              | (.error e, fs) => (.error ("failed to create outer package: " ++ e), fs)
              | (.ok _, fs) => (.ok (appName ++ ".intunewin"), fs)

/-! ## Supporting lemmas: blocks, CBC chaining, padding -/

theorem xorBytes_length (a b : Bytes) : (xorBytes a b).length = min a.length b.length := by
  simp [xorBytes]

theorem xorBytes_xorBytes_left (a b : Bytes) (h : a.length = b.length) :
    xorBytes (xorBytes a b) a = b := by
  induction a generalizing b with
  | nil => cases b with
    | nil => rfl
    | cons y ys => simp at h
  | cons x xs ih =>
      cases b with
      | nil => simp at h
      | cons y ys =>
          simp only [List.length_cons, Nat.add_right_cancel_iff] at h
          simp only [xorBytes, List.zipWith_cons_cons] at *
          rw [ih ys h]
          congr 1
          rw [Nat.xor_comm x y]
          exact Nat.xor_cancel_right x y

theorem toBlocks_nil : toBlocks [] = [] := rfl

theorem toBlocksF_congr (f : Nat) :
    ∀ (l : Bytes) (f' : Nat), l.length ≤ f → l.length ≤ f' →
      toBlocksF f l = toBlocksF f' l := by
  induction f with
  | zero =>
      intro l f' hf _
      cases l with
      | nil => cases f' <;> rfl
      | cons x xs => simp at hf
  | succ a ih =>
      intro l f' hf hf'
      cases l with
      | nil => cases f' <;> rfl
      | cons x xs =>
          cases f' with
          | zero => simp at hf'
          | succ b =>
              simp only [toBlocksF]
              congr 1
              refine ih _ b ?_ ?_ <;>
                simp only [List.length_drop, List.length_cons] at * <;> omega

theorem toBlocks_of_ne_nil (l : Bytes) (h : l ≠ []) :
    toBlocks l = l.take 16 :: toBlocks (l.drop 16) := by
  cases l with
  | nil => exact absurd rfl h
  | cons x xs =>
      show toBlocksF (x :: xs).length (x :: xs) = _
      simp only [List.length_cons, toBlocksF]
      congr 1
      refine toBlocksF_congr _ _ _ ?_ ?_ <;>
        simp only [List.length_drop, List.length_cons] <;> omega

theorem toBlocks_flatten (l : Bytes) : (toBlocks l).flatten = l := by
  suffices hgen : ∀ (n : Nat) (l : Bytes), l.length = n → (toBlocks l).flatten = l from
    hgen l.length l rfl
  intro n
  induction n using Nat.strong_induction_on with
  | _ n ih =>
      intro l hn
      cases l with
      | nil => rfl
      | cons x xs =>
          rw [toBlocks_of_ne_nil _ (by simp)]
          rw [List.flatten_cons]
          rw [ih ((x :: xs).drop 16).length ?_ _ rfl]
          · exact List.take_append_drop 16 (x :: xs)
          · subst hn
            simp only [List.length_drop, List.length_cons]
            omega

theorem toBlocks_mem_length (l : Bytes) :
    16 ∣ l.length → ∀ b ∈ toBlocks l, b.length = 16 := by
  suffices hgen : ∀ (n : Nat) (l : Bytes), l.length = n →
      16 ∣ l.length → ∀ b ∈ toBlocks l, b.length = 16 from hgen l.length l rfl
  intro n
  induction n using Nat.strong_induction_on with
  | _ n ih =>
      intro l hn hdvd b hb
      cases l with
      | nil => simp [toBlocks_nil] at hb
      | cons x xs =>
          rw [toBlocks_of_ne_nil _ (by simp), List.mem_cons] at hb
          subst hn
          have h16 : 16 ≤ (x :: xs).length :=
            Nat.le_of_dvd (by simp) hdvd
          rcases hb with hb | hb
          · subst hb
            simp only [List.length_take]
            omega
          · refine ih ((x :: xs).drop 16).length ?_ _ rfl ?_ b hb
            · simp only [List.length_drop, List.length_cons]
              omega
            · rcases hdvd with ⟨k, hk⟩
              refine ⟨k - 1, ?_⟩
              simp only [List.length_drop, hk]
              omega

/-- Appending a block-aligned flat list recovers its block decomposition. -/
theorem toBlocks_flatten_of_blocks (bl : List Bytes) (hb : ∀ b ∈ bl, b.length = 16) :
    toBlocks bl.flatten = bl := by
  induction bl with
  | nil => rfl
  | cons b bs ih =>
      have hb16 : b.length = 16 := hb b (List.mem_cons_self b bs)
      have hne : b ++ bs.flatten ≠ [] := by
        intro hcontra
        have := congrArg List.length hcontra
        simp [hb16] at this
      rw [List.flatten_cons, toBlocks_of_ne_nil _ hne]
      rw [← hb16, List.take_left, List.drop_left]
      rw [ih fun x hx => hb x (List.mem_cons_of_mem b hx)]

theorem cbcEncryptBlocks_blocks (C : CryptoPrims) (hC : C.WellFormed)
    (key : Bytes) (hkey : key.length = 32) :
    ∀ (bs : List Bytes) (prev : Bytes), prev.length = 16 →
      (∀ b ∈ bs, b.length = 16) →
      ∀ c ∈ cbcEncryptBlocks C key prev bs, c.length = 16 := by
  intro bs
  induction bs with
  | nil => intro prev _ _ c hc; simp [cbcEncryptBlocks] at hc
  | cons b bs ih =>
      intro prev hprev hb c hc
      have hb16 : b.length = 16 := hb b (List.mem_cons_self b bs)
      have hxor : (xorBytes prev b).length = 16 := by
        simp [xorBytes_length, hprev, hb16]
      have henc : (C.aesEncBlock key (xorBytes prev b)).length = 16 :=
        hC.2.2.1 key _ hkey hxor
      simp only [cbcEncryptBlocks, List.mem_cons] at hc
      rcases hc with hc | hc
      · subst hc; exact henc
      · exact ih _ henc (fun x hx => hb x (List.mem_cons_of_mem b hx)) c hc

theorem cbcEncryptBlocks_length (C : CryptoPrims) (key : Bytes) :
    ∀ (bs : List Bytes) (prev : Bytes),
      (cbcEncryptBlocks C key prev bs).length = bs.length := by
  intro bs
  induction bs with
  | nil => intro prev; rfl
  | cons b bs ih => intro prev; simp [cbcEncryptBlocks, ih]

theorem flatten_length_of_blocks (bl : List Bytes) (hb : ∀ b ∈ bl, b.length = 16) :
    bl.flatten.length = 16 * bl.length := by
  induction bl with
  | nil => simp
  | cons b bs ih =>
      simp only [List.flatten_cons, List.length_append, List.length_cons]
      rw [hb b (List.mem_cons_self b bs), ih fun x hx => hb x (List.mem_cons_of_mem b hx)]
      ring

/-- CBC decryption inverts CBC encryption blockwise. -/
theorem cbcDecryptBlocks_cbcEncryptBlocks (C : CryptoPrims) (hC : C.WellFormed)
    (key : Bytes) (hkey : key.length = 32) :
    ∀ (bs : List Bytes) (prev : Bytes), prev.length = 16 →
      (∀ b ∈ bs, b.length = 16) →
      cbcDecryptBlocks C key prev (cbcEncryptBlocks C key prev bs) = bs := by
  intro bs
  induction bs with
  | nil => intro prev _ _; rfl
  | cons b bs ih =>
      intro prev hprev hb
      have hb16 : b.length = 16 := hb b (List.mem_cons_self b bs)
      have hxor : (xorBytes prev b).length = 16 := by
        simp [xorBytes_length, hprev, hb16]
      have henc : (C.aesEncBlock key (xorBytes prev b)).length = 16 :=
        hC.2.2.1 key _ hkey hxor
      simp only [cbcEncryptBlocks, cbcDecryptBlocks]
      rw [hC.2.2.2 key _ hkey hxor]
      rw [xorBytes_xorBytes_left prev b (by rw [hprev, hb16])]
      rw [ih _ henc fun x hx => hb x (List.mem_cons_of_mem b hx)]

/-- Round trip of flat CBC encryption and decryption on block-aligned data. -/
theorem cbcDecrypt_cbcEncrypt (C : CryptoPrims) (hC : C.WellFormed)
    (key iv data : Bytes) (hkey : key.length = 32) (hiv : iv.length = 16)
    (hdvd : 16 ∣ data.length) :
    cbcDecrypt C key iv (cbcEncrypt C key iv data) = data := by
  unfold cbcEncrypt cbcDecrypt
  have hblocks : ∀ b ∈ toBlocks data, b.length = 16 := toBlocks_mem_length data hdvd
  have hcblocks : ∀ c ∈ cbcEncryptBlocks C key iv (toBlocks data), c.length = 16 :=
    cbcEncryptBlocks_blocks C hC key hkey (toBlocks data) iv hiv hblocks
  rw [toBlocks_flatten_of_blocks _ hcblocks]
  rw [cbcDecryptBlocks_cbcEncryptBlocks C hC key hkey (toBlocks data) iv hiv hblocks]
  exact toBlocks_flatten data

theorem pkcs7Pad_length (data : Bytes) :
    (pkcs7Pad data 16).length = data.length + (16 - data.length % 16) := by
  simp [pkcs7Pad]

theorem pkcs7Pad_length_dvd (data : Bytes) : 16 ∣ (pkcs7Pad data 16).length := by
  rw [pkcs7Pad_length]
  have h := Nat.mod_lt data.length (y := 16) (by decide)
  have h2 := Nat.mod_add_div data.length 16
  omega

theorem pkcs7Pad_of_dvd (data : Bytes) (h : 16 ∣ data.length) :
    pkcs7Pad data 16 = data ++ List.replicate 16 16 := by
  unfold pkcs7Pad
  have h0 : data.length % 16 = 0 := by omega
  rw [h0]

theorem getLast?_replicate_succ (k a : Nat) :
    (List.replicate (k + 1) a).getLast? = some a := by
  induction k with
  | zero => rfl
  | succ m ih =>
      rw [List.replicate_succ, List.replicate_succ a m, List.getLast?_cons_cons,
        ← List.replicate_succ]
      exact ih

/-- Removing PKCS#7 padding recovers the original data. -/
theorem pkcs7Unpad_pkcs7Pad (data : Bytes) : pkcs7Unpad (pkcs7Pad data 16) = data := by
  unfold pkcs7Pad pkcs7Unpad
  have hmod : data.length % 16 < 16 := Nat.mod_lt data.length (by decide)
  set pad := 16 - data.length % 16 with hpad
  have hpadpos : 0 < pad := by omega
  have hpadlt : pad % 256 = pad := Nat.mod_eq_of_lt (by omega)
  have hlast : (data ++ List.replicate pad (pad % 256)).getLastD 0 = pad := by
    rw [List.getLastD_eq_getLast?, List.getLast?_append_of_ne_nil]
    · rcases Nat.exists_eq_add_of_lt hpadpos with ⟨k, hk⟩
      have hk' : pad = k + 1 := by omega
      rw [hk', getLast?_replicate_succ]
      rw [hk'] at hpadlt
      rw [hpadlt]
      rfl
    · intro hcon
      have := congrArg List.length hcon
      simp only [List.length_replicate, List.length_nil] at this
      omega
  rw [hlast]
  simp only [List.length_append, List.length_replicate]
  have hsub : data.length + pad - pad = data.length := by omega
  rw [hsub, List.take_left]

theorem cbcEncrypt_length (C : CryptoPrims) (hC : C.WellFormed) (key iv data : Bytes)
    (hkey : key.length = 32) (hiv : iv.length = 16) (hdvd : 16 ∣ data.length) :
    (cbcEncrypt C key iv data).length = data.length := by
  unfold cbcEncrypt
  have hblocks := toBlocks_mem_length data hdvd
  have hcblocks := cbcEncryptBlocks_blocks C hC key hkey (toBlocks data) iv hiv hblocks
  rw [flatten_length_of_blocks _ hcblocks, cbcEncryptBlocks_length]
  conv_rhs => rw [← toBlocks_flatten data]
  rw [flatten_length_of_blocks _ hblocks]

/-! ## Inversion lemmas for `EncryptAES256CBC` and `Encrypt` -/

theorem EncryptAES256CBC_eq_ok (C : CryptoPrims) (key iv p : Bytes)
    (hkey : key.length = AES256KeySize) (hiv : iv.length = IVSize) :
    EncryptAES256CBC C key iv p = .ok (cbcEncrypt C key iv (pkcs7Pad p aesBlockSize)) := by
  unfold EncryptAES256CBC
  simp [hkey, hiv]

theorem EncryptAES256CBC_ok_lengths {C : CryptoPrims} {key iv p ct : Bytes}
    (h : EncryptAES256CBC C key iv p = .ok ct) :
    key.length = AES256KeySize ∧ iv.length = IVSize := by
  unfold EncryptAES256CBC at h
  split at h
  · exact absurd h (by simp)
  · split at h
    · exact absurd h (by simp)
    · rename_i hk hi
      exact ⟨by simpa using hk, by simpa using hi⟩

theorem EncryptAES256CBC_ok_ct {C : CryptoPrims} {key iv p ct : Bytes}
    (h : EncryptAES256CBC C key iv p = .ok ct) :
    ct = cbcEncrypt C key iv (pkcs7Pad p aesBlockSize) := by
  unfold EncryptAES256CBC at h
  split at h
  · exact absurd h (by simp)
  · split at h
    · exact absurd h (by simp)
    · simpa using h.symm

theorem Encrypt_eq_ok (C : CryptoPrims) (ek mk iv p : Bytes)
    (hek : ek.length = AES256KeySize) (hiv : iv.length = IVSize) :
    Encrypt C ek mk iv p = .ok
      ({ encryptionKey := ek, macKey := mk, iv := iv,
         mac := ComputeHMACSHA256 C mk
           (iv ++ cbcEncrypt C ek iv (pkcs7Pad p aesBlockSize)),
         fileDigest := ComputeSHA256 C p, unencryptedSize := p.length },
       ComputeHMACSHA256 C mk (iv ++ cbcEncrypt C ek iv (pkcs7Pad p aesBlockSize)) ++
         iv ++ cbcEncrypt C ek iv (pkcs7Pad p aesBlockSize)) := by
  unfold Encrypt
  rw [EncryptAES256CBC_eq_ok C ek iv p hek hiv]

theorem Encrypt_ok_inv {C : CryptoPrims} {ek mk iv p : Bytes}
    {info : EncryptionInfo} {out : Bytes}
    (h : Encrypt C ek mk iv p = .ok (info, out)) :
    ∃ ct, EncryptAES256CBC C ek iv p = .ok ct ∧
      info = { encryptionKey := ek, macKey := mk, iv := iv,
               mac := ComputeHMACSHA256 C mk (iv ++ ct),
               fileDigest := ComputeSHA256 C p, unencryptedSize := p.length } ∧
      out = ComputeHMACSHA256 C mk (iv ++ ct) ++ iv ++ ct := by
  unfold Encrypt at h
  cases hE : EncryptAES256CBC C ek iv p with
  | error e => rw [hE] at h; exact absurd h (by simp)
  | ok ct =>
      rw [hE] at h
      simp only [Except.ok.injEq, Prod.mk.injEq] at h
      exact ⟨ct, rfl, h.1.symm, h.2.symm⟩

/-! ## Witness inputs: concrete key material and plaintext -/

/-- A concrete 32-byte encryption key. -/
def wKey : Bytes := List.replicate 32 0

/-- A concrete 32-byte MAC key. -/
def wMacKey : Bytes := List.replicate 32 1

/-- A concrete 16-byte IV. -/
def wIV : Bytes := List.replicate 16 2

/-- A concrete plaintext. -/
def wPlain : Bytes := [5, 6, 7]

/-- The encryption info `Encrypt testPrims wKey wMacKey wIV wPlain` returns. -/
def wInfo : EncryptionInfo where
  encryptionKey := wKey
  macKey := wMacKey
  iv := wIV
  mac := List.replicate 32 64
  fileDigest := List.replicate 32 3
  unencryptedSize := 3

/-- The ciphertext `Encrypt testPrims wKey wMacKey wIV wPlain` produces. -/
def wCt : Bytes := [7, 4, 5, 15, 15, 15, 15, 15, 15, 15, 15, 15, 15, 15, 15, 15]

/-- The container bytes `Encrypt testPrims wKey wMacKey wIV wPlain` returns. -/
def wOut : Bytes := List.replicate 32 64 ++ wIV ++ wCt

theorem Encrypt_witness_eval :
    Encrypt testPrims wKey wMacKey wIV wPlain = .ok (wInfo, wOut) := by
  rfl

/-! ## Claim theorems -/

/-- Claim C1: for every plaintext, the container bytes returned by `Encrypt` are
exactly the 32-byte MAC, then the 16-byte IV, then the ciphertext, with no
other bytes and no reordering, where the MAC and IV are the ones recorded in
the returned `EncryptionInfo` and the ciphertext is the AES-256-CBC
encryption under the recorded key and IV. -/
theorem encrypt_container_layout (C : CryptoPrims) (hC : C.WellFormed)
    (ek mk iv p : Bytes) (info : EncryptionInfo) (out : Bytes)
    (h : Encrypt C ek mk iv p = .ok (info, out)) :
    ∃ ct, EncryptAES256CBC C info.encryptionKey info.iv p = .ok ct ∧
      out = info.mac ++ info.iv ++ ct ∧
      info.mac.length = 32 ∧ info.iv.length = 16 := by
  obtain ⟨ct, hE, hinfo, hout⟩ := Encrypt_ok_inv h
  have hlen := EncryptAES256CBC_ok_lengths hE
  subst hinfo
  exact ⟨ct, hE, hout, hC.2.1 mk (iv ++ ct), hlen.2⟩

theorem encrypt_container_layout_witness :
    testPrims.WellFormed ∧
    ∃ ct, EncryptAES256CBC testPrims wInfo.encryptionKey wInfo.iv wPlain = .ok ct ∧
      wOut = wInfo.mac ++ wInfo.iv ++ ct ∧
      wInfo.mac.length = 32 ∧ wInfo.iv.length = 16 :=
  ⟨testPrims_wellFormed,
   encrypt_container_layout testPrims testPrims_wellFormed wKey wMacKey wIV wPlain
     wInfo wOut Encrypt_witness_eval⟩

/-- Claim C2: the MAC returned by `Encrypt` is HMAC-SHA256 keyed with the returned
MAC key over exactly `IV ‖ ciphertext` — not over the plaintext and not over
the MAC itself. -/
theorem encrypt_mac_coverage (C : CryptoPrims) (ek mk iv p : Bytes)
    (info : EncryptionInfo) (out : Bytes)
    (h : Encrypt C ek mk iv p = .ok (info, out)) :
    ∃ ct, EncryptAES256CBC C ek iv p = .ok ct ∧
      info.mac = ComputeHMACSHA256 C info.macKey (info.iv ++ ct) := by
  obtain ⟨ct, hE, hinfo, _⟩ := Encrypt_ok_inv h
  subst hinfo
  exact ⟨ct, hE, rfl⟩

theorem encrypt_mac_coverage_witness :
    ∃ ct, EncryptAES256CBC testPrims wKey wIV wPlain = .ok ct ∧
      wInfo.mac = ComputeHMACSHA256 testPrims wInfo.macKey (wInfo.iv ++ ct) :=
  encrypt_mac_coverage testPrims wKey wMacKey wIV wPlain wInfo wOut Encrypt_witness_eval

/-- Claim C3: `Encrypt` pads with PKCS#7 before encrypting — the pad length is
`blockSize − (len(P) mod blockSize)`, a full 16-byte block of value-16 bytes
for block-aligned input — so the ciphertext length is a multiple of 16 and at
least `len(P) + 1`. -/
theorem encrypt_pkcs7_padding (C : CryptoPrims) (hC : C.WellFormed)
    (ek mk iv p : Bytes) (info : EncryptionInfo) (out : Bytes)
    (h : Encrypt C ek mk iv p = .ok (info, out)) :
    (pkcs7Pad p aesBlockSize).length =
      p.length + (aesBlockSize - p.length % aesBlockSize) ∧
    (16 ∣ p.length → pkcs7Pad p aesBlockSize = p ++ List.replicate 16 16) ∧
    ∃ ct, EncryptAES256CBC C ek iv p = .ok ct ∧
      ct.length % 16 = 0 ∧ p.length + 1 ≤ ct.length := by
  obtain ⟨ct, hE, hinfo, hout⟩ := Encrypt_ok_inv h
  have hlen := EncryptAES256CBC_ok_lengths hE
  have hct := EncryptAES256CBC_ok_ct hE
  have hctlen : ct.length = (pkcs7Pad p aesBlockSize).length := by
    rw [hct]
    exact cbcEncrypt_length C hC ek iv _ hlen.1 hlen.2 (pkcs7Pad_length_dvd p)
  have hpadlen : (pkcs7Pad p aesBlockSize).length = p.length + (16 - p.length % 16) :=
    pkcs7Pad_length p
  have hpaddvd : 16 ∣ (pkcs7Pad p aesBlockSize).length := pkcs7Pad_length_dvd p
  refine ⟨pkcs7Pad_length p, fun hdvd => pkcs7Pad_of_dvd p hdvd, ct, hE, ?_, ?_⟩
  · rw [hctlen]
    obtain ⟨k, hk⟩ := hpaddvd
    omega
  · rw [hctlen]
    have hmod : p.length % 16 < 16 := Nat.mod_lt p.length (by decide)
    omega

theorem encrypt_pkcs7_padding_witness :
    (pkcs7Pad wPlain aesBlockSize).length =
      wPlain.length + (aesBlockSize - wPlain.length % aesBlockSize) ∧
    (16 ∣ wPlain.length → pkcs7Pad wPlain aesBlockSize = wPlain ++ List.replicate 16 16) ∧
    ∃ ct, EncryptAES256CBC testPrims wKey wIV wPlain = .ok ct ∧
      ct.length % 16 = 0 ∧ wPlain.length + 1 ≤ ct.length :=
  encrypt_pkcs7_padding testPrims testPrims_wellFormed wKey wMacKey wIV wPlain
    wInfo wOut Encrypt_witness_eval

/-- Claim C4: decrypting the ciphertext produced by `Encrypt` with AES-256-CBC
under the returned encryption key and IV and then removing the PKCS#7
padding yields exactly the original plaintext. -/
theorem encrypt_decrypt_roundtrip (C : CryptoPrims) (hC : C.WellFormed)
    (ek mk iv p : Bytes) (info : EncryptionInfo) (out : Bytes)
    (h : Encrypt C ek mk iv p = .ok (info, out)) :
    ∃ ct, EncryptAES256CBC C ek iv p = .ok ct ∧
      out = info.mac ++ info.iv ++ ct ∧
      pkcs7Unpad (cbcDecrypt C info.encryptionKey info.iv ct) = p := by
  obtain ⟨ct, hE, hinfo, hout⟩ := Encrypt_ok_inv h
  have hlen := EncryptAES256CBC_ok_lengths hE
  have hct := EncryptAES256CBC_ok_ct hE
  subst hinfo
  refine ⟨ct, hE, hout, ?_⟩
  show pkcs7Unpad (cbcDecrypt C ek iv ct) = p
  rw [hct]
  rw [cbcDecrypt_cbcEncrypt C hC ek iv (pkcs7Pad p aesBlockSize) hlen.1 hlen.2
    (pkcs7Pad_length_dvd p)]
  exact pkcs7Unpad_pkcs7Pad p

theorem encrypt_decrypt_roundtrip_witness :
    ∃ ct, EncryptAES256CBC testPrims wKey wIV wPlain = .ok ct ∧
      wOut = wInfo.mac ++ wInfo.iv ++ ct ∧
      pkcs7Unpad (cbcDecrypt testPrims wInfo.encryptionKey wInfo.iv ct) = wPlain :=
  encrypt_decrypt_roundtrip testPrims testPrims_wellFormed wKey wMacKey wIV wPlain
    wInfo wOut Encrypt_witness_eval

/-- Claim C5: the returned `fileDigest` is the SHA-256 of exactly the unpadded,
unencrypted input, and `unencryptedSize` is exactly the input length. -/
theorem encrypt_digest_and_size (C : CryptoPrims) (ek mk iv p : Bytes)
    (info : EncryptionInfo) (out : Bytes)
    (h : Encrypt C ek mk iv p = .ok (info, out)) :
    info.fileDigest = ComputeSHA256 C p ∧ info.unencryptedSize = p.length := by
  obtain ⟨ct, hE, hinfo, hout⟩ := Encrypt_ok_inv h
  subst hinfo
  exact ⟨rfl, rfl⟩

theorem encrypt_digest_and_size_witness :
    wInfo.fileDigest = ComputeSHA256 testPrims wPlain ∧
    wInfo.unencryptedSize = wPlain.length :=
  encrypt_digest_and_size testPrims wKey wMacKey wIV wPlain wInfo wOut
    Encrypt_witness_eval

/-- Claim C8: `EncryptAES256CBC` fails exactly when the key is not 32 bytes or the
IV is not 16 bytes; with key material of the generator-contract sizes,
`Encrypt` always succeeds (so inside `Encrypt` the defensive size check is
unreachable and only the random source can make `Encrypt` fail). -/
theorem encryptAES256CBC_error_iff (C : CryptoPrims) (key iv p : Bytes) :
    ((∃ e, EncryptAES256CBC C key iv p = .error e) ↔
      key.length ≠ AES256KeySize ∨ iv.length ≠ IVSize) ∧
    (∀ ek mk, ek.length = AES256KeySize → mk.length = AES256KeySize →
      iv.length = IVSize → ∃ r, Encrypt C ek mk iv p = .ok r) := by
  constructor
  · constructor
    · rintro ⟨e, he⟩
      by_contra hcon
      push_neg at hcon
      rw [EncryptAES256CBC_eq_ok C key iv p hcon.1 hcon.2] at he
      exact absurd he (by simp)
    · intro hcon
      unfold EncryptAES256CBC
      rcases hcon with hk | hi
      · exact ⟨"invalid key size", by simp [hk]⟩
      · by_cases hk : key.length = AES256KeySize
        · exact ⟨"invalid IV size", by simp [hk, hi]⟩
        · exact ⟨"invalid key size", by simp [hk]⟩
  · intro ek mk hek _ hiv
    exact ⟨_, Encrypt_eq_ok C ek mk iv p hek hiv⟩

theorem encryptAES256CBC_error_iff_witness :
    ((∃ e, EncryptAES256CBC testPrims wKey wIV wPlain = .error e) ↔
      wKey.length ≠ AES256KeySize ∨ wIV.length ≠ IVSize) ∧
    (∃ r, Encrypt testPrims wKey wMacKey wIV wPlain = .ok r) :=
  ⟨(encryptAES256CBC_error_iff testPrims wKey wIV wPlain).1,
   (encryptAES256CBC_error_iff testPrims wKey wIV wPlain).2 wKey wMacKey
     (by decide) (by decide) (by decide)⟩

/-- Claim C10: `EncryptReader` on a reader that delivers bytes `B` without error
behaves exactly as `Encrypt` on `B` — same `EncryptionInfo`, same output
bytes, for the same random draws — and it fails exactly when reading fails
(with the read error) or when `Encrypt` fails. -/
theorem encryptReader_refines_encrypt (C : CryptoPrims) (ek mk iv : Bytes) :
    (∀ B, EncryptReader C (.ok B) ek mk iv = Encrypt C ek mk iv B) ∧
    (∀ e, EncryptReader C (.error e) ek mk iv =
      .error ("failed to read input: " ++ e)) := by
  exact ⟨fun B => rfl, fun e => rfl⟩

/-- Claim C6: a successful packaging run produces an archive with exactly two
entries — the rendered Detection.xml at
`IntuneWinPackage/Metadata/Detection.xml` and the `MAC ‖ IV ‖ ciphertext`
blob at `IntuneWinPackage/Contents/IntunePackage.intunewin` — and no other
entries. -/
theorem createPackage_two_entries (C : CryptoPrims) (ek mk iv inner : Bytes)
    (appName setupFile : String)
    (hek : ek.length = AES256KeySize) (hiv : iv.length = IVSize) :
    ∃ (info : EncryptionInfo) (ct : Bytes) (xmlDoc : String),
      Encrypt C ek mk iv inner = .ok (info, info.mac ++ info.iv ++ ct) ∧
      EncryptAES256CBC C ek iv inner = .ok ct ∧
      GenerateDetectionXML
        { name := appName, setupFile := setupFile, cryptoInfo := info.toBase64 } =
        .ok xmlDoc ∧
      CreatePackage C ek mk iv inner appName setupFile = .ok
        [(metadataPath, strToBytes xmlDoc),
         (contentsDir ++ EncryptedFileName, info.mac ++ info.iv ++ ct)] := by
  have hE := Encrypt_eq_ok C ek mk iv inner hek hiv
  have hA := EncryptAES256CBC_eq_ok C ek iv inner hek hiv
  refine ⟨{ encryptionKey := ek, macKey := mk, iv := iv,
            mac := ComputeHMACSHA256 C mk
              (iv ++ cbcEncrypt C ek iv (pkcs7Pad inner aesBlockSize)),
            fileDigest := ComputeSHA256 C inner, unencryptedSize := inner.length },
          cbcEncrypt C ek iv (pkcs7Pad inner aesBlockSize), _, hE, hA, rfl, ?_⟩
  unfold CreatePackage
  rw [hE]
  rfl

theorem createPackage_two_entries_witness :
    ∃ (info : EncryptionInfo) (ct : Bytes) (xmlDoc : String),
      Encrypt testPrims wKey wMacKey wIV wPlain = .ok (info, info.mac ++ info.iv ++ ct) ∧
      EncryptAES256CBC testPrims wKey wIV wPlain = .ok ct ∧
      GenerateDetectionXML
        { name := "app", setupFile := "install.exe", cryptoInfo := info.toBase64 } =
        .ok xmlDoc ∧
      CreatePackage testPrims wKey wMacKey wIV wPlain "app" "install.exe" = .ok
        [(metadataPath, strToBytes xmlDoc),
         (contentsDir ++ EncryptedFileName, info.mac ++ info.iv ++ ct)] :=
  createPackage_two_entries testPrims wKey wMacKey wIV wPlain "app" "install.exe"
    (by decide) (by decide)

/-- Claim C9 fails on the code: a packaging run whose outer-package assembly fails
after `os.Create` reports an error yet leaves a (partial) output file behind
— here a run whose Detection.xml write fails returns an error while the
output path holds a partial archive. -/
theorem createPackage_failure_leaves_file :
    (CreatePackageFS testPrims (.ok wPlain) wKey wMacKey wIV "app" "install.exe"
        { createOk := true, writeMetadataOk := false, writeContentOk := true }).1 =
      .error "failed to create outer package: failed to add Detection.xml" ∧
    (CreatePackageFS testPrims (.ok wPlain) wKey wMacKey wIV "app" "install.exe"
        { createOk := true, writeMetadataOk := false, writeContentOk := true }).2 =
      some [] := by
  exact ⟨rfl, rfl⟩

/-- Claim C9, amended: a run that fails during archiving or encryption leaves no
output file — a file can exist only once those stages have succeeded and the
output file has been created — and a run that returns success leaves the
complete two-entry container; but a failure during final outer-package
assembly can leave a partial output file (see the counterexample). -/
theorem createPackage_failure_atomicity (C : CryptoPrims)
    (innerRes : Except String Bytes) (ek mk iv : Bytes) (an sf : String)
    (fl : OuterFaults) :
    ((CreatePackageFS C innerRes ek mk iv an sf fl).2 ≠ none →
      ∃ inner info enc, innerRes = .ok inner ∧
        Encrypt C ek mk iv inner = .ok (info, enc) ∧ fl.createOk = true) ∧
    (∀ outPath, (CreatePackageFS C innerRes ek mk iv an sf fl).1 = .ok outPath →
      ∃ inner info enc xml, innerRes = .ok inner ∧
        Encrypt C ek mk iv inner = .ok (info, enc) ∧
        GenerateDetectionXML
          { name := an, setupFile := sf, cryptoInfo := info.toBase64 } = .ok xml ∧
        (CreatePackageFS C innerRes ek mk iv an sf fl).2 =
          some (createOuterPackage enc (strToBytes xml))) := by
  cases innerRes with
  | error e =>
      constructor
      · intro hne
        exact absurd rfl hne
      · intro outPath h
        exact absurd h (by simp [CreatePackageFS])
  | ok inner =>
      cases hE : Encrypt C ek mk iv inner with
      | error e =>
          constructor
          · intro hne
            refine absurd ?_ hne
            simp [CreatePackageFS, hE]
          · intro outPath h
            rw [show CreatePackageFS C (.ok inner) ek mk iv an sf fl =
              (.error ("failed to encrypt content: " ++ e), none) by
                simp [CreatePackageFS, hE]] at h
            exact absurd h (by simp)
      | ok res =>
          obtain ⟨info, enc⟩ := res
          obtain ⟨xml, hG⟩ : ∃ xml, GenerateDetectionXML
              { name := an, setupFile := sf, cryptoInfo := info.toBase64 } = .ok xml :=
            ⟨_, rfl⟩
          have hfs : CreatePackageFS C (.ok inner) ek mk iv an sf fl =
              match createOuterPackageFS fl enc (strToBytes xml) with
              | (.error e, fs) => (.error ("failed to create outer package: " ++ e), fs)
              | (.ok _, fs) => (.ok (an ++ ".intunewin"), fs) := by
            simp only [CreatePackageFS, hE, hG]
          rcases fl with ⟨co, wm, wc⟩
          constructor
          · intro hne
            rw [hfs] at hne
            cases co
            · exact absurd (by simp [createOuterPackageFS]) hne
            · exact ⟨inner, info, enc, rfl, hE, rfl⟩
          · intro outPath h
            rw [hfs] at h
            rw [hfs]
            cases co
            · exact absurd h (by simp [createOuterPackageFS])
            · cases wm
              · exact absurd h (by simp [createOuterPackageFS])
              · cases wc
                · exact absurd h (by simp [createOuterPackageFS])
                · exact ⟨inner, info, enc, xml, rfl, hE, hG,
                    by simp [createOuterPackageFS]⟩

theorem createPackage_failure_atomicity_witness :
    ∃ inner info enc xml, (Except.ok wPlain : Except String Bytes) = .ok inner ∧
      Encrypt testPrims wKey wMacKey wIV inner = .ok (info, enc) ∧
      GenerateDetectionXML
        { name := "app", setupFile := "install.exe", cryptoInfo := info.toBase64 } =
        .ok xml ∧
      (CreatePackageFS testPrims (.ok wPlain) wKey wMacKey wIV "app" "install.exe"
          { createOk := true, writeMetadataOk := true, writeContentOk := true }).2 =
        some (createOuterPackage enc (strToBytes xml)) :=
  (createPackage_failure_atomicity testPrims (.ok wPlain) wKey wMacKey wIV "app"
      "install.exe" { createOk := true, writeMetadataOk := true, writeContentOk := true }).2
    ("app" ++ ".intunewin") (by rfl)

/-! ## Supporting lemmas for the Detection.xml schema claim -/

theorem xmlEscapeChar_of_noSpecial (c : Char)
    (h : c.toNat ≠ 34 ∧ c.toNat ≠ 39 ∧ c.toNat ≠ 38 ∧ c.toNat ≠ 60 ∧
      c.toNat ≠ 62 ∧ c.toNat ≠ 9 ∧ c.toNat ≠ 10 ∧ c.toNat ≠ 13) :
    xmlEscapeChar c = String.singleton c := by
  obtain ⟨h1, h2, h3, h4, h5, h6, h7, h8⟩ := h
  simp [xmlEscapeChar, h1, h2, h3, h4, h5, h6, h7, h8]

theorem xmlEscapeList_of_noSpecial (l : List Char)
    (h : ∀ c ∈ l, c.toNat ≠ 34 ∧ c.toNat ≠ 39 ∧ c.toNat ≠ 38 ∧ c.toNat ≠ 60 ∧
      c.toNat ≠ 62 ∧ c.toNat ≠ 9 ∧ c.toNat ≠ 10 ∧ c.toNat ≠ 13) :
    xmlEscapeList l = l := by
  induction l with
  | nil => rfl
  | cons c t ih =>
      simp only [xmlEscapeList]
      rw [xmlEscapeChar_of_noSpecial c (h c (List.mem_cons_self c t))]
      rw [ih fun x hx => h x (List.mem_cons_of_mem c hx)]
      rfl

theorem xmlEscape_of_noSpecial (s : String) (h : NoXmlSpecial s) : xmlEscape s = s := by
  unfold xmlEscape
  rw [xmlEscapeList_of_noSpecial s.data h]

theorem natDigitsF_shape (fuel : Nat) :
    ∀ n, n ≤ fuel → ∀ c ∈ natDigitsF fuel n, ∃ d, d < 10 ∧ c = Char.ofNat (48 + d) := by
  induction fuel with
  | zero =>
      intro n hn c hc
      have hn0 : n = 0 := by omega
      subst hn0
      simp only [natDigitsF, List.mem_singleton] at hc
      exact ⟨0, by decide, hc⟩
  | succ a ih =>
      intro n hn c hc
      simp only [natDigitsF] at hc
      by_cases hlt : n < 10
      · rw [if_pos hlt] at hc
        simp only [List.mem_singleton] at hc
        exact ⟨n, hlt, hc⟩
      · rw [if_neg hlt] at hc
        rw [List.mem_append, List.mem_singleton] at hc
        rcases hc with hc | hc
        · exact ih (n / 10) (by omega) c hc
        · exact ⟨n % 10, Nat.mod_lt n (by decide), hc⟩

theorem natDigits_bounds (n : Nat) :
    ∀ c ∈ natDigits n, 48 ≤ c.toNat ∧ c.toNat ≤ 57 := by
  intro c hc
  obtain ⟨d, hd, hcd⟩ := natDigitsF_shape n n (Nat.le_refl n) c hc
  subst hcd
  interval_cases d <;> decide

theorem natToDecimal_no60 (n : Nat) :
    ∀ c ∈ (natToDecimal n).data, (c.toNat != 60) = true := by
  intro c hc
  have hb := natDigits_bounds n c hc
  simp only [bne_iff_ne, ne_eq]
  omega

theorem expectChunk_append (pre : String) (rest : List Char) :
    expectChunk pre (pre.data ++ rest) = some rest := by
  unfold expectChunk
  rw [if_pos ?_]
  · rw [List.drop_left]
  · rw [List.isPrefixOf_iff_prefix]
    exact pre.data.prefix_append rest

theorem takeWhile_append_elim (p : Char → Bool) (f : List Char) (c : Char) (t : List Char)
    (hf : ∀ x ∈ f, p x = true) (hc : p c = false) :
    (f ++ c :: t).takeWhile p = f ∧ (f ++ c :: t).dropWhile p = c :: t := by
  induction f with
  | nil => simp [List.takeWhile_cons, List.dropWhile_cons, hc]
  | cons x xs ih =>
      have hx : p x = true := hf x (List.mem_cons_self x xs)
      have hxs := ih fun y hy => hf y (List.mem_cons_of_mem x hy)
      simp [List.takeWhile_cons, List.dropWhile_cons, hx, hxs.1, hxs.2]

theorem readUntil_append (stop : Nat) (f : List Char) (nextChunk : String)
    (rest : List Char)
    (hf : ∀ x ∈ f, (x.toNat != stop) = true)
    (hne : nextChunk.data ≠ [])
    (hstop : (nextChunk.data.headD (Char.ofNat 0)).toNat = stop) :
    readUntil stop (f ++ (nextChunk.data ++ rest)) = (f, nextChunk.data ++ rest) := by
  unfold readUntil
  cases hnd : nextChunk.data with
  | nil => exact absurd hnd hne
  | cons c t =>
      rw [hnd] at hstop
      simp only [List.headD_cons] at hstop
      have hc : (c.toNat != stop) = false := by simp [hstop]
      rw [List.cons_append]
      have ht := takeWhile_append_elim (fun x => x.toNat != stop) f c (t ++ rest) hf hc
      rw [ht.1, ht.2]

theorem parseFields_step (chunk : String) (stop : Nat) (specs : List (String × Nat))
    (f : List Char) (nextChunk : String) (rest : List Char)
    (fs : List String) (r : List Char)
    (hf : ∀ x ∈ f, (x.toNat != stop) = true)
    (hne : nextChunk.data ≠ [])
    (hstop : (nextChunk.data.headD (Char.ofNat 0)).toNat = stop)
    (hrec : parseFields specs (nextChunk.data ++ rest) = some (fs, r)) :
    parseFields ((chunk, stop) :: specs) (chunk.data ++ (f ++ (nextChunk.data ++ rest))) =
      some (⟨f⟩ :: fs, r) := by
  simp only [parseFields, expectChunk_append]
  rw [readUntil_append stop f nextChunk rest hf hne hstop]
  rw [hrec]

theorem noSpecial_stream60 (s : String) (h : NoXmlSpecial s) :
    ∀ x ∈ s.data, (x.toNat != 60) = true := by
  intro x hx
  have hne := (h x hx).2.2.2.1
  simp [hne]

theorem isPrefix_split {α : Type} (pat h1 h2 t : List α) (hsplit : h1 = pat ++ h2) :
    pat <+: h1 ++ t :=
  ⟨h2 ++ t, by rw [hsplit, List.append_assoc]⟩

theorem isInfix_head3 {α : Type} (pat a b c t : List α) (h : pat <:+: a ++ (b ++ c)) :
    pat <:+: a ++ (b ++ (c ++ t)) := by
  refine h.trans ⟨[], t, ?_⟩
  simp [List.append_assoc]

theorem isInfix_skip2 {α : Type} (pat a b c d e t : List α) (h : pat <:+: c ++ (d ++ e)) :
    pat <:+: a ++ (b ++ (c ++ (d ++ (e ++ t)))) := by
  refine h.trans ⟨a ++ b, t, ?_⟩
  simp [List.append_assoc]

theorem expectChunk_self (pre : String) : expectChunk pre pre.data = some [] := by
  have h := expectChunk_append pre []
  rwa [List.append_nil] at h

/-- Claim C7: the generated Detection.xml starts with the XML declaration,
carries both namespace declarations on the root element, renders the fixed
schema constants (`ToolVersion="1.8.4.0"`, `ProfileVersion1`, `SHA256`,
`IntunePackage.intunewin`), and carries every caller-supplied field verbatim,
so a consumer parsing the document recovers the supplied values exactly. -/
theorem generateDetectionXML_schema (opts : DetectionXMLOptions)
    (hname : NoXmlSpecial opts.name) (hsetup : NoXmlSpecial opts.setupFile)
    (hekey : NoXmlSpecial opts.cryptoInfo.encryptionKey)
    (hmkey : NoXmlSpecial opts.cryptoInfo.macKey)
    (hivb : NoXmlSpecial opts.cryptoInfo.iv)
    (hmacb : NoXmlSpecial opts.cryptoInfo.mac)
    (hfdb : NoXmlSpecial opts.cryptoInfo.fileDigest) :
    ∃ doc, GenerateDetectionXML opts = .ok doc ∧
      ("<?xml version=\"1.0\" encoding=\"UTF-8\"?>").data <+: doc.data ∧
      ("xmlns:xsi=\"http://www.w3.org/2001/XMLSchema-instance\"").data <:+: doc.data ∧
      ("xmlns:xsd=\"http://www.w3.org/2001/XMLSchema\"").data <:+: doc.data ∧
      parseDetectionXML doc = some
        [xsiNamespace, xsdNamespace, ToolVersion, opts.name,
         natToDecimal opts.cryptoInfo.unencryptedSize, EncryptedFileName,
         opts.setupFile, opts.cryptoInfo.encryptionKey, opts.cryptoInfo.macKey,
         opts.cryptoInfo.iv, opts.cryptoInfo.mac, ProfileIdentifier,
         opts.cryptoInfo.fileDigest, FileDigestAlgorithm] := by
  have hdata : (xmlHeader ++ marshalApplicationInfo
      { xsi := xsiNamespace, xsd := xsdNamespace, toolVersion := ToolVersion,
        name := opts.name, unencryptedContentSize := opts.cryptoInfo.unencryptedSize,
        fileName := EncryptedFileName, setupFile := opts.setupFile,
        encryptionInfo :=
          { encryptionKey := opts.cryptoInfo.encryptionKey,
            macKey := opts.cryptoInfo.macKey,
            initializationVector := opts.cryptoInfo.iv,
            mac := opts.cryptoInfo.mac,
            profileIdentifier := ProfileIdentifier,
            fileDigest := opts.cryptoInfo.fileDigest,
            fileDigestAlgorithm := FileDigestAlgorithm } }).data =
      ((xmlHeader ++ chunkA).data ++ (xsiNamespace.data ++ (chunkB.data ++ (xsdNamespace.data ++ (chunkC.data ++ (ToolVersion.data ++ (chunkD.data ++ (opts.name.data ++ (chunkE.data ++ ((natToDecimal opts.cryptoInfo.unencryptedSize).data ++ (chunkF.data ++ (EncryptedFileName.data ++ (chunkG.data ++ (opts.setupFile.data ++ (chunkH.data ++ (opts.cryptoInfo.encryptionKey.data ++ (chunkI.data ++ (opts.cryptoInfo.macKey.data ++ (chunkJ.data ++ (opts.cryptoInfo.iv.data ++ (chunkK.data ++ (opts.cryptoInfo.mac.data ++ (chunkL.data ++ (ProfileIdentifier.data ++ (chunkM.data ++ (opts.cryptoInfo.fileDigest.data ++ (chunkN.data ++ (FileDigestAlgorithm.data ++ (chunkO.data ++ []))))))))))))))))))))))))))))) := by
    simp only [marshalApplicationInfo]
    rw [xmlEscape_of_noSpecial xsiNamespace (by decide),
      xmlEscape_of_noSpecial xsdNamespace (by decide),
      xmlEscape_of_noSpecial ToolVersion (by decide),
      xmlEscape_of_noSpecial EncryptedFileName (by decide),
      xmlEscape_of_noSpecial ProfileIdentifier (by decide),
      xmlEscape_of_noSpecial FileDigestAlgorithm (by decide),
      xmlEscape_of_noSpecial _ hname, xmlEscape_of_noSpecial _ hsetup,
      xmlEscape_of_noSpecial _ hekey, xmlEscape_of_noSpecial _ hmkey,
      xmlEscape_of_noSpecial _ hivb, xmlEscape_of_noSpecial _ hmacb,
      xmlEscape_of_noSpecial _ hfdb]
    simp [String.data_append, List.append_assoc]
  refine ⟨_, rfl, ?_, ?_, ?_, ?_⟩
  · rw [hdata]
    exact isPrefix_split _ _ (("\n<ApplicationInfo xmlns:xsi=\"").data) _ (by decide)
  · rw [hdata]
    exact isInfix_head3 _ _ _ _ _
      ⟨((xmlHeader ++ "<ApplicationInfo ").data), ((" xmlns:xsd=\"").data), by decide⟩
  · rw [hdata]
    exact isInfix_skip2 _ _ _ _ _ _ _
      ⟨(("\" ").data), ((" ToolVersion=\"").data), by decide⟩
  · simp only [parseDetectionXML]
    rw [hdata]
    simp only [detectionSchema]
    have h15 : parseFields [] (chunkO.data ++ []) = some ([], (chunkO.data ++ [])) := rfl
    have h14 : parseFields [(chunkN, 60)] (chunkN.data ++ (FileDigestAlgorithm.data ++ (chunkO.data ++ []))) =
        some ([FileDigestAlgorithm], (chunkO.data ++ [])) :=
      parseFields_step chunkN 60 []
        (FileDigestAlgorithm.data) chunkO []
        [] (chunkO.data ++ [])
        (by decide) (by decide) (by decide) h15
    have h13 : parseFields [(chunkM, 60), (chunkN, 60)] (chunkM.data ++ (opts.cryptoInfo.fileDigest.data ++ (chunkN.data ++ (FileDigestAlgorithm.data ++ (chunkO.data ++ []))))) =
        some ([opts.cryptoInfo.fileDigest, FileDigestAlgorithm], (chunkO.data ++ [])) :=
      parseFields_step chunkM 60 [(chunkN, 60)]
        (opts.cryptoInfo.fileDigest.data) chunkN (FileDigestAlgorithm.data ++ (chunkO.data ++ []))
        [FileDigestAlgorithm] (chunkO.data ++ [])
        (noSpecial_stream60 _ hfdb) (by decide) (by decide) h14
    have h12 : parseFields [(chunkL, 60), (chunkM, 60), (chunkN, 60)] (chunkL.data ++ (ProfileIdentifier.data ++ (chunkM.data ++ (opts.cryptoInfo.fileDigest.data ++ (chunkN.data ++ (FileDigestAlgorithm.data ++ (chunkO.data ++ []))))))) =
        some ([ProfileIdentifier, opts.cryptoInfo.fileDigest, FileDigestAlgorithm], (chunkO.data ++ [])) :=
      parseFields_step chunkL 60 [(chunkM, 60), (chunkN, 60)]
        (ProfileIdentifier.data) chunkM (opts.cryptoInfo.fileDigest.data ++ (chunkN.data ++ (FileDigestAlgorithm.data ++ (chunkO.data ++ []))))
        [opts.cryptoInfo.fileDigest, FileDigestAlgorithm] (chunkO.data ++ [])
        (by decide) (by decide) (by decide) h13
    have h11 : parseFields [(chunkK, 60), (chunkL, 60), (chunkM, 60), (chunkN, 60)] (chunkK.data ++ (opts.cryptoInfo.mac.data ++ (chunkL.data ++ (ProfileIdentifier.data ++ (chunkM.data ++ (opts.cryptoInfo.fileDigest.data ++ (chunkN.data ++ (FileDigestAlgorithm.data ++ (chunkO.data ++ []))))))))) =
        some ([opts.cryptoInfo.mac, ProfileIdentifier, opts.cryptoInfo.fileDigest, FileDigestAlgorithm], (chunkO.data ++ [])) :=
      parseFields_step chunkK 60 [(chunkL, 60), (chunkM, 60), (chunkN, 60)]
        (opts.cryptoInfo.mac.data) chunkL (ProfileIdentifier.data ++ (chunkM.data ++ (opts.cryptoInfo.fileDigest.data ++ (chunkN.data ++ (FileDigestAlgorithm.data ++ (chunkO.data ++ []))))))
        [ProfileIdentifier, opts.cryptoInfo.fileDigest, FileDigestAlgorithm] (chunkO.data ++ [])
        (noSpecial_stream60 _ hmacb) (by decide) (by decide) h12
    have h10 : parseFields [(chunkJ, 60), (chunkK, 60), (chunkL, 60), (chunkM, 60), (chunkN, 60)] (chunkJ.data ++ (opts.cryptoInfo.iv.data ++ (chunkK.data ++ (opts.cryptoInfo.mac.data ++ (chunkL.data ++ (ProfileIdentifier.data ++ (chunkM.data ++ (opts.cryptoInfo.fileDigest.data ++ (chunkN.data ++ (FileDigestAlgorithm.data ++ (chunkO.data ++ []))))))))))) =
        some ([opts.cryptoInfo.iv, opts.cryptoInfo.mac, ProfileIdentifier, opts.cryptoInfo.fileDigest, FileDigestAlgorithm], (chunkO.data ++ [])) :=
      parseFields_step chunkJ 60 [(chunkK, 60), (chunkL, 60), (chunkM, 60), (chunkN, 60)]
        (opts.cryptoInfo.iv.data) chunkK (opts.cryptoInfo.mac.data ++ (chunkL.data ++ (ProfileIdentifier.data ++ (chunkM.data ++ (opts.cryptoInfo.fileDigest.data ++ (chunkN.data ++ (FileDigestAlgorithm.data ++ (chunkO.data ++ []))))))))
        [opts.cryptoInfo.mac, ProfileIdentifier, opts.cryptoInfo.fileDigest, FileDigestAlgorithm] (chunkO.data ++ [])
        (noSpecial_stream60 _ hivb) (by decide) (by decide) h11
    have h9 : parseFields [(chunkI, 60), (chunkJ, 60), (chunkK, 60), (chunkL, 60), (chunkM, 60), (chunkN, 60)] (chunkI.data ++ (opts.cryptoInfo.macKey.data ++ (chunkJ.data ++ (opts.cryptoInfo.iv.data ++ (chunkK.data ++ (opts.cryptoInfo.mac.data ++ (chunkL.data ++ (ProfileIdentifier.data ++ (chunkM.data ++ (opts.cryptoInfo.fileDigest.data ++ (chunkN.data ++ (FileDigestAlgorithm.data ++ (chunkO.data ++ []))))))))))))) =
        some ([opts.cryptoInfo.macKey, opts.cryptoInfo.iv, opts.cryptoInfo.mac, ProfileIdentifier, opts.cryptoInfo.fileDigest, FileDigestAlgorithm], (chunkO.data ++ [])) :=
      parseFields_step chunkI 60 [(chunkJ, 60), (chunkK, 60), (chunkL, 60), (chunkM, 60), (chunkN, 60)]
        (opts.cryptoInfo.macKey.data) chunkJ (opts.cryptoInfo.iv.data ++ (chunkK.data ++ (opts.cryptoInfo.mac.data ++ (chunkL.data ++ (ProfileIdentifier.data ++ (chunkM.data ++ (opts.cryptoInfo.fileDigest.data ++ (chunkN.data ++ (FileDigestAlgorithm.data ++ (chunkO.data ++ []))))))))))
        [opts.cryptoInfo.iv, opts.cryptoInfo.mac, ProfileIdentifier, opts.cryptoInfo.fileDigest, FileDigestAlgorithm] (chunkO.data ++ [])
        (noSpecial_stream60 _ hmkey) (by decide) (by decide) h10
    have h8 : parseFields [(chunkH, 60), (chunkI, 60), (chunkJ, 60), (chunkK, 60), (chunkL, 60), (chunkM, 60), (chunkN, 60)] (chunkH.data ++ (opts.cryptoInfo.encryptionKey.data ++ (chunkI.data ++ (opts.cryptoInfo.macKey.data ++ (chunkJ.data ++ (opts.cryptoInfo.iv.data ++ (chunkK.data ++ (opts.cryptoInfo.mac.data ++ (chunkL.data ++ (ProfileIdentifier.data ++ (chunkM.data ++ (opts.cryptoInfo.fileDigest.data ++ (chunkN.data ++ (FileDigestAlgorithm.data ++ (chunkO.data ++ []))))))))))))))) =
        some ([opts.cryptoInfo.encryptionKey, opts.cryptoInfo.macKey, opts.cryptoInfo.iv, opts.cryptoInfo.mac, ProfileIdentifier, opts.cryptoInfo.fileDigest, FileDigestAlgorithm], (chunkO.data ++ [])) :=
      parseFields_step chunkH 60 [(chunkI, 60), (chunkJ, 60), (chunkK, 60), (chunkL, 60), (chunkM, 60), (chunkN, 60)]
        (opts.cryptoInfo.encryptionKey.data) chunkI (opts.cryptoInfo.macKey.data ++ (chunkJ.data ++ (opts.cryptoInfo.iv.data ++ (chunkK.data ++ (opts.cryptoInfo.mac.data ++ (chunkL.data ++ (ProfileIdentifier.data ++ (chunkM.data ++ (opts.cryptoInfo.fileDigest.data ++ (chunkN.data ++ (FileDigestAlgorithm.data ++ (chunkO.data ++ []))))))))))))
        [opts.cryptoInfo.macKey, opts.cryptoInfo.iv, opts.cryptoInfo.mac, ProfileIdentifier, opts.cryptoInfo.fileDigest, FileDigestAlgorithm] (chunkO.data ++ [])
        (noSpecial_stream60 _ hekey) (by decide) (by decide) h9
    have h7 : parseFields [(chunkG, 60), (chunkH, 60), (chunkI, 60), (chunkJ, 60), (chunkK, 60), (chunkL, 60), (chunkM, 60), (chunkN, 60)] (chunkG.data ++ (opts.setupFile.data ++ (chunkH.data ++ (opts.cryptoInfo.encryptionKey.data ++ (chunkI.data ++ (opts.cryptoInfo.macKey.data ++ (chunkJ.data ++ (opts.cryptoInfo.iv.data ++ (chunkK.data ++ (opts.cryptoInfo.mac.data ++ (chunkL.data ++ (ProfileIdentifier.data ++ (chunkM.data ++ (opts.cryptoInfo.fileDigest.data ++ (chunkN.data ++ (FileDigestAlgorithm.data ++ (chunkO.data ++ []))))))))))))))))) =
        some ([opts.setupFile, opts.cryptoInfo.encryptionKey, opts.cryptoInfo.macKey, opts.cryptoInfo.iv, opts.cryptoInfo.mac, ProfileIdentifier, opts.cryptoInfo.fileDigest, FileDigestAlgorithm], (chunkO.data ++ [])) :=
      parseFields_step chunkG 60 [(chunkH, 60), (chunkI, 60), (chunkJ, 60), (chunkK, 60), (chunkL, 60), (chunkM, 60), (chunkN, 60)]
        (opts.setupFile.data) chunkH (opts.cryptoInfo.encryptionKey.data ++ (chunkI.data ++ (opts.cryptoInfo.macKey.data ++ (chunkJ.data ++ (opts.cryptoInfo.iv.data ++ (chunkK.data ++ (opts.cryptoInfo.mac.data ++ (chunkL.data ++ (ProfileIdentifier.data ++ (chunkM.data ++ (opts.cryptoInfo.fileDigest.data ++ (chunkN.data ++ (FileDigestAlgorithm.data ++ (chunkO.data ++ []))))))))))))))
        [opts.cryptoInfo.encryptionKey, opts.cryptoInfo.macKey, opts.cryptoInfo.iv, opts.cryptoInfo.mac, ProfileIdentifier, opts.cryptoInfo.fileDigest, FileDigestAlgorithm] (chunkO.data ++ [])
        (noSpecial_stream60 _ hsetup) (by decide) (by decide) h8
    have h6 : parseFields [(chunkF, 60), (chunkG, 60), (chunkH, 60), (chunkI, 60), (chunkJ, 60), (chunkK, 60), (chunkL, 60), (chunkM, 60), (chunkN, 60)] (chunkF.data ++ (EncryptedFileName.data ++ (chunkG.data ++ (opts.setupFile.data ++ (chunkH.data ++ (opts.cryptoInfo.encryptionKey.data ++ (chunkI.data ++ (opts.cryptoInfo.macKey.data ++ (chunkJ.data ++ (opts.cryptoInfo.iv.data ++ (chunkK.data ++ (opts.cryptoInfo.mac.data ++ (chunkL.data ++ (ProfileIdentifier.data ++ (chunkM.data ++ (opts.cryptoInfo.fileDigest.data ++ (chunkN.data ++ (FileDigestAlgorithm.data ++ (chunkO.data ++ []))))))))))))))))))) =
        some ([EncryptedFileName, opts.setupFile, opts.cryptoInfo.encryptionKey, opts.cryptoInfo.macKey, opts.cryptoInfo.iv, opts.cryptoInfo.mac, ProfileIdentifier, opts.cryptoInfo.fileDigest, FileDigestAlgorithm], (chunkO.data ++ [])) :=
      parseFields_step chunkF 60 [(chunkG, 60), (chunkH, 60), (chunkI, 60), (chunkJ, 60), (chunkK, 60), (chunkL, 60), (chunkM, 60), (chunkN, 60)]
        (EncryptedFileName.data) chunkG (opts.setupFile.data ++ (chunkH.data ++ (opts.cryptoInfo.encryptionKey.data ++ (chunkI.data ++ (opts.cryptoInfo.macKey.data ++ (chunkJ.data ++ (opts.cryptoInfo.iv.data ++ (chunkK.data ++ (opts.cryptoInfo.mac.data ++ (chunkL.data ++ (ProfileIdentifier.data ++ (chunkM.data ++ (opts.cryptoInfo.fileDigest.data ++ (chunkN.data ++ (FileDigestAlgorithm.data ++ (chunkO.data ++ []))))))))))))))))
        [opts.setupFile, opts.cryptoInfo.encryptionKey, opts.cryptoInfo.macKey, opts.cryptoInfo.iv, opts.cryptoInfo.mac, ProfileIdentifier, opts.cryptoInfo.fileDigest, FileDigestAlgorithm] (chunkO.data ++ [])
        (by decide) (by decide) (by decide) h7
    have h5 : parseFields [(chunkE, 60), (chunkF, 60), (chunkG, 60), (chunkH, 60), (chunkI, 60), (chunkJ, 60), (chunkK, 60), (chunkL, 60), (chunkM, 60), (chunkN, 60)] (chunkE.data ++ ((natToDecimal opts.cryptoInfo.unencryptedSize).data ++ (chunkF.data ++ (EncryptedFileName.data ++ (chunkG.data ++ (opts.setupFile.data ++ (chunkH.data ++ (opts.cryptoInfo.encryptionKey.data ++ (chunkI.data ++ (opts.cryptoInfo.macKey.data ++ (chunkJ.data ++ (opts.cryptoInfo.iv.data ++ (chunkK.data ++ (opts.cryptoInfo.mac.data ++ (chunkL.data ++ (ProfileIdentifier.data ++ (chunkM.data ++ (opts.cryptoInfo.fileDigest.data ++ (chunkN.data ++ (FileDigestAlgorithm.data ++ (chunkO.data ++ []))))))))))))))))))))) =
        some ([natToDecimal opts.cryptoInfo.unencryptedSize, EncryptedFileName, opts.setupFile, opts.cryptoInfo.encryptionKey, opts.cryptoInfo.macKey, opts.cryptoInfo.iv, opts.cryptoInfo.mac, ProfileIdentifier, opts.cryptoInfo.fileDigest, FileDigestAlgorithm], (chunkO.data ++ [])) :=
      parseFields_step chunkE 60 [(chunkF, 60), (chunkG, 60), (chunkH, 60), (chunkI, 60), (chunkJ, 60), (chunkK, 60), (chunkL, 60), (chunkM, 60), (chunkN, 60)]
        ((natToDecimal opts.cryptoInfo.unencryptedSize).data) chunkF (EncryptedFileName.data ++ (chunkG.data ++ (opts.setupFile.data ++ (chunkH.data ++ (opts.cryptoInfo.encryptionKey.data ++ (chunkI.data ++ (opts.cryptoInfo.macKey.data ++ (chunkJ.data ++ (opts.cryptoInfo.iv.data ++ (chunkK.data ++ (opts.cryptoInfo.mac.data ++ (chunkL.data ++ (ProfileIdentifier.data ++ (chunkM.data ++ (opts.cryptoInfo.fileDigest.data ++ (chunkN.data ++ (FileDigestAlgorithm.data ++ (chunkO.data ++ []))))))))))))))))))
        [EncryptedFileName, opts.setupFile, opts.cryptoInfo.encryptionKey, opts.cryptoInfo.macKey, opts.cryptoInfo.iv, opts.cryptoInfo.mac, ProfileIdentifier, opts.cryptoInfo.fileDigest, FileDigestAlgorithm] (chunkO.data ++ [])
        (natToDecimal_no60 _) (by decide) (by decide) h6
    have h4 : parseFields [(chunkD, 60), (chunkE, 60), (chunkF, 60), (chunkG, 60), (chunkH, 60), (chunkI, 60), (chunkJ, 60), (chunkK, 60), (chunkL, 60), (chunkM, 60), (chunkN, 60)] (chunkD.data ++ (opts.name.data ++ (chunkE.data ++ ((natToDecimal opts.cryptoInfo.unencryptedSize).data ++ (chunkF.data ++ (EncryptedFileName.data ++ (chunkG.data ++ (opts.setupFile.data ++ (chunkH.data ++ (opts.cryptoInfo.encryptionKey.data ++ (chunkI.data ++ (opts.cryptoInfo.macKey.data ++ (chunkJ.data ++ (opts.cryptoInfo.iv.data ++ (chunkK.data ++ (opts.cryptoInfo.mac.data ++ (chunkL.data ++ (ProfileIdentifier.data ++ (chunkM.data ++ (opts.cryptoInfo.fileDigest.data ++ (chunkN.data ++ (FileDigestAlgorithm.data ++ (chunkO.data ++ []))))))))))))))))))))))) =
        some ([opts.name, natToDecimal opts.cryptoInfo.unencryptedSize, EncryptedFileName, opts.setupFile, opts.cryptoInfo.encryptionKey, opts.cryptoInfo.macKey, opts.cryptoInfo.iv, opts.cryptoInfo.mac, ProfileIdentifier, opts.cryptoInfo.fileDigest, FileDigestAlgorithm], (chunkO.data ++ [])) :=
      parseFields_step chunkD 60 [(chunkE, 60), (chunkF, 60), (chunkG, 60), (chunkH, 60), (chunkI, 60), (chunkJ, 60), (chunkK, 60), (chunkL, 60), (chunkM, 60), (chunkN, 60)]
        (opts.name.data) chunkE ((natToDecimal opts.cryptoInfo.unencryptedSize).data ++ (chunkF.data ++ (EncryptedFileName.data ++ (chunkG.data ++ (opts.setupFile.data ++ (chunkH.data ++ (opts.cryptoInfo.encryptionKey.data ++ (chunkI.data ++ (opts.cryptoInfo.macKey.data ++ (chunkJ.data ++ (opts.cryptoInfo.iv.data ++ (chunkK.data ++ (opts.cryptoInfo.mac.data ++ (chunkL.data ++ (ProfileIdentifier.data ++ (chunkM.data ++ (opts.cryptoInfo.fileDigest.data ++ (chunkN.data ++ (FileDigestAlgorithm.data ++ (chunkO.data ++ []))))))))))))))))))))
        [natToDecimal opts.cryptoInfo.unencryptedSize, EncryptedFileName, opts.setupFile, opts.cryptoInfo.encryptionKey, opts.cryptoInfo.macKey, opts.cryptoInfo.iv, opts.cryptoInfo.mac, ProfileIdentifier, opts.cryptoInfo.fileDigest, FileDigestAlgorithm] (chunkO.data ++ [])
        (noSpecial_stream60 _ hname) (by decide) (by decide) h5
    have h3 : parseFields [(chunkC, 34), (chunkD, 60), (chunkE, 60), (chunkF, 60), (chunkG, 60), (chunkH, 60), (chunkI, 60), (chunkJ, 60), (chunkK, 60), (chunkL, 60), (chunkM, 60), (chunkN, 60)] (chunkC.data ++ (ToolVersion.data ++ (chunkD.data ++ (opts.name.data ++ (chunkE.data ++ ((natToDecimal opts.cryptoInfo.unencryptedSize).data ++ (chunkF.data ++ (EncryptedFileName.data ++ (chunkG.data ++ (opts.setupFile.data ++ (chunkH.data ++ (opts.cryptoInfo.encryptionKey.data ++ (chunkI.data ++ (opts.cryptoInfo.macKey.data ++ (chunkJ.data ++ (opts.cryptoInfo.iv.data ++ (chunkK.data ++ (opts.cryptoInfo.mac.data ++ (chunkL.data ++ (ProfileIdentifier.data ++ (chunkM.data ++ (opts.cryptoInfo.fileDigest.data ++ (chunkN.data ++ (FileDigestAlgorithm.data ++ (chunkO.data ++ []))))))))))))))))))))))))) =
        some ([ToolVersion, opts.name, natToDecimal opts.cryptoInfo.unencryptedSize, EncryptedFileName, opts.setupFile, opts.cryptoInfo.encryptionKey, opts.cryptoInfo.macKey, opts.cryptoInfo.iv, opts.cryptoInfo.mac, ProfileIdentifier, opts.cryptoInfo.fileDigest, FileDigestAlgorithm], (chunkO.data ++ [])) :=
      parseFields_step chunkC 34 [(chunkD, 60), (chunkE, 60), (chunkF, 60), (chunkG, 60), (chunkH, 60), (chunkI, 60), (chunkJ, 60), (chunkK, 60), (chunkL, 60), (chunkM, 60), (chunkN, 60)]
        (ToolVersion.data) chunkD (opts.name.data ++ (chunkE.data ++ ((natToDecimal opts.cryptoInfo.unencryptedSize).data ++ (chunkF.data ++ (EncryptedFileName.data ++ (chunkG.data ++ (opts.setupFile.data ++ (chunkH.data ++ (opts.cryptoInfo.encryptionKey.data ++ (chunkI.data ++ (opts.cryptoInfo.macKey.data ++ (chunkJ.data ++ (opts.cryptoInfo.iv.data ++ (chunkK.data ++ (opts.cryptoInfo.mac.data ++ (chunkL.data ++ (ProfileIdentifier.data ++ (chunkM.data ++ (opts.cryptoInfo.fileDigest.data ++ (chunkN.data ++ (FileDigestAlgorithm.data ++ (chunkO.data ++ []))))))))))))))))))))))
        [opts.name, natToDecimal opts.cryptoInfo.unencryptedSize, EncryptedFileName, opts.setupFile, opts.cryptoInfo.encryptionKey, opts.cryptoInfo.macKey, opts.cryptoInfo.iv, opts.cryptoInfo.mac, ProfileIdentifier, opts.cryptoInfo.fileDigest, FileDigestAlgorithm] (chunkO.data ++ [])
        (by decide) (by decide) (by decide) h4
    have h2 : parseFields [(chunkB, 34), (chunkC, 34), (chunkD, 60), (chunkE, 60), (chunkF, 60), (chunkG, 60), (chunkH, 60), (chunkI, 60), (chunkJ, 60), (chunkK, 60), (chunkL, 60), (chunkM, 60), (chunkN, 60)] (chunkB.data ++ (xsdNamespace.data ++ (chunkC.data ++ (ToolVersion.data ++ (chunkD.data ++ (opts.name.data ++ (chunkE.data ++ ((natToDecimal opts.cryptoInfo.unencryptedSize).data ++ (chunkF.data ++ (EncryptedFileName.data ++ (chunkG.data ++ (opts.setupFile.data ++ (chunkH.data ++ (opts.cryptoInfo.encryptionKey.data ++ (chunkI.data ++ (opts.cryptoInfo.macKey.data ++ (chunkJ.data ++ (opts.cryptoInfo.iv.data ++ (chunkK.data ++ (opts.cryptoInfo.mac.data ++ (chunkL.data ++ (ProfileIdentifier.data ++ (chunkM.data ++ (opts.cryptoInfo.fileDigest.data ++ (chunkN.data ++ (FileDigestAlgorithm.data ++ (chunkO.data ++ []))))))))))))))))))))))))))) =
        some ([xsdNamespace, ToolVersion, opts.name, natToDecimal opts.cryptoInfo.unencryptedSize, EncryptedFileName, opts.setupFile, opts.cryptoInfo.encryptionKey, opts.cryptoInfo.macKey, opts.cryptoInfo.iv, opts.cryptoInfo.mac, ProfileIdentifier, opts.cryptoInfo.fileDigest, FileDigestAlgorithm], (chunkO.data ++ [])) :=
      parseFields_step chunkB 34 [(chunkC, 34), (chunkD, 60), (chunkE, 60), (chunkF, 60), (chunkG, 60), (chunkH, 60), (chunkI, 60), (chunkJ, 60), (chunkK, 60), (chunkL, 60), (chunkM, 60), (chunkN, 60)]
        (xsdNamespace.data) chunkC (ToolVersion.data ++ (chunkD.data ++ (opts.name.data ++ (chunkE.data ++ ((natToDecimal opts.cryptoInfo.unencryptedSize).data ++ (chunkF.data ++ (EncryptedFileName.data ++ (chunkG.data ++ (opts.setupFile.data ++ (chunkH.data ++ (opts.cryptoInfo.encryptionKey.data ++ (chunkI.data ++ (opts.cryptoInfo.macKey.data ++ (chunkJ.data ++ (opts.cryptoInfo.iv.data ++ (chunkK.data ++ (opts.cryptoInfo.mac.data ++ (chunkL.data ++ (ProfileIdentifier.data ++ (chunkM.data ++ (opts.cryptoInfo.fileDigest.data ++ (chunkN.data ++ (FileDigestAlgorithm.data ++ (chunkO.data ++ []))))))))))))))))))))))))
        [ToolVersion, opts.name, natToDecimal opts.cryptoInfo.unencryptedSize, EncryptedFileName, opts.setupFile, opts.cryptoInfo.encryptionKey, opts.cryptoInfo.macKey, opts.cryptoInfo.iv, opts.cryptoInfo.mac, ProfileIdentifier, opts.cryptoInfo.fileDigest, FileDigestAlgorithm] (chunkO.data ++ [])
        (by decide) (by decide) (by decide) h3
    have h1 : parseFields [((xmlHeader ++ chunkA), 34), (chunkB, 34), (chunkC, 34), (chunkD, 60), (chunkE, 60), (chunkF, 60), (chunkG, 60), (chunkH, 60), (chunkI, 60), (chunkJ, 60), (chunkK, 60), (chunkL, 60), (chunkM, 60), (chunkN, 60)] ((xmlHeader ++ chunkA).data ++ (xsiNamespace.data ++ (chunkB.data ++ (xsdNamespace.data ++ (chunkC.data ++ (ToolVersion.data ++ (chunkD.data ++ (opts.name.data ++ (chunkE.data ++ ((natToDecimal opts.cryptoInfo.unencryptedSize).data ++ (chunkF.data ++ (EncryptedFileName.data ++ (chunkG.data ++ (opts.setupFile.data ++ (chunkH.data ++ (opts.cryptoInfo.encryptionKey.data ++ (chunkI.data ++ (opts.cryptoInfo.macKey.data ++ (chunkJ.data ++ (opts.cryptoInfo.iv.data ++ (chunkK.data ++ (opts.cryptoInfo.mac.data ++ (chunkL.data ++ (ProfileIdentifier.data ++ (chunkM.data ++ (opts.cryptoInfo.fileDigest.data ++ (chunkN.data ++ (FileDigestAlgorithm.data ++ (chunkO.data ++ []))))))))))))))))))))))))))))) =
        some ([xsiNamespace, xsdNamespace, ToolVersion, opts.name, natToDecimal opts.cryptoInfo.unencryptedSize, EncryptedFileName, opts.setupFile, opts.cryptoInfo.encryptionKey, opts.cryptoInfo.macKey, opts.cryptoInfo.iv, opts.cryptoInfo.mac, ProfileIdentifier, opts.cryptoInfo.fileDigest, FileDigestAlgorithm], (chunkO.data ++ [])) :=
      parseFields_step (xmlHeader ++ chunkA) 34 [(chunkB, 34), (chunkC, 34), (chunkD, 60), (chunkE, 60), (chunkF, 60), (chunkG, 60), (chunkH, 60), (chunkI, 60), (chunkJ, 60), (chunkK, 60), (chunkL, 60), (chunkM, 60), (chunkN, 60)]
        (xsiNamespace.data) chunkB (xsdNamespace.data ++ (chunkC.data ++ (ToolVersion.data ++ (chunkD.data ++ (opts.name.data ++ (chunkE.data ++ ((natToDecimal opts.cryptoInfo.unencryptedSize).data ++ (chunkF.data ++ (EncryptedFileName.data ++ (chunkG.data ++ (opts.setupFile.data ++ (chunkH.data ++ (opts.cryptoInfo.encryptionKey.data ++ (chunkI.data ++ (opts.cryptoInfo.macKey.data ++ (chunkJ.data ++ (opts.cryptoInfo.iv.data ++ (chunkK.data ++ (opts.cryptoInfo.mac.data ++ (chunkL.data ++ (ProfileIdentifier.data ++ (chunkM.data ++ (opts.cryptoInfo.fileDigest.data ++ (chunkN.data ++ (FileDigestAlgorithm.data ++ (chunkO.data ++ []))))))))))))))))))))))))))
        [xsdNamespace, ToolVersion, opts.name, natToDecimal opts.cryptoInfo.unencryptedSize, EncryptedFileName, opts.setupFile, opts.cryptoInfo.encryptionKey, opts.cryptoInfo.macKey, opts.cryptoInfo.iv, opts.cryptoInfo.mac, ProfileIdentifier, opts.cryptoInfo.fileDigest, FileDigestAlgorithm] (chunkO.data ++ [])
        (by decide) (by decide) (by decide) h2
    rw [h1]
    simp [expectChunk_append, expectChunk_self]

/-- Concrete Detection.xml options matching the repository test
(`detection_test.go`). -/
def wDetectOpts : DetectionXMLOptions where
  name := "TestApp"
  setupFile := "install.exe"
  cryptoInfo :=
    { encryptionKey := "dGVzdGVuY3J5cHRpb25rZXkxMjM0NTY3ODkwMTIzNDU="
      macKey := "dGVzdG1hY2tleWtleTEyMzQ1Njc4OTAxMjM0NTY3ODk="
      iv := "dGVzdGl2MTIzNDU2Nzg5MA=="
      mac := "dGVzdG1hY3ZhbHVlMTIzNDU2Nzg5MDEyMzQ1Njc4OTA="
      fileDigest := "dGVzdGRpZ2VzdDEyMzQ1Njc4OTAxMjM0NTY3ODkwMTI="
      unencryptedSize := 1234567 }

theorem generateDetectionXML_schema_witness :
    ∃ doc, GenerateDetectionXML wDetectOpts = .ok doc ∧
      ("<?xml version=\"1.0\" encoding=\"UTF-8\"?>").data <+: doc.data ∧
      ("xmlns:xsi=\"http://www.w3.org/2001/XMLSchema-instance\"").data <:+: doc.data ∧
      ("xmlns:xsd=\"http://www.w3.org/2001/XMLSchema\"").data <:+: doc.data ∧
      parseDetectionXML doc = some
        [xsiNamespace, xsdNamespace, ToolVersion, wDetectOpts.name,
         natToDecimal wDetectOpts.cryptoInfo.unencryptedSize, EncryptedFileName,
         wDetectOpts.setupFile, wDetectOpts.cryptoInfo.encryptionKey,
         wDetectOpts.cryptoInfo.macKey, wDetectOpts.cryptoInfo.iv,
         wDetectOpts.cryptoInfo.mac, ProfileIdentifier,
         wDetectOpts.cryptoInfo.fileDigest, FileDigestAlgorithm] :=
  generateDetectionXML_schema wDetectOpts (by decide) (by decide) (by decide)
    (by decide) (by decide) (by decide) (by decide)

end OpenPackage

